import Mathlib

/-!
# Verification of the Glue Schema Registry serialization layer

Shallow embedding of `src/python/glue_schema_registry` (model.py, client.py,
avro_serializer.py, json_serializer.py).  Python runtime values are modelled by
`PyVal`, Python exceptions by `PyErr`, fallible Python code by `Except PyErr`.
The external libraries the code delegates to (the `json` module, `fastavro`,
`boto3`) are modelled by explicit executable Lean functions, each marked with a
doc comment naming the library function it stands for.
-/

deriving instance DecidableEq for Except

namespace GlueSchemaRegistry

mutual

/-- Model of a Python runtime value as it appears in this code base: the
values that `json.loads` can produce, plus the values stored in the
`SalesforceAudit` dataclass.  A non-integral JSON number (Python `float`) is
carried abstractly by its literal text, since no code in the repository ever
computes with one.  Python `list` and `dict` are the mutually defined
`PyList` and `PyDict`; a `PyDict` records its insertion sequence. -/
inductive PyVal where
  | str (s : String)
  | int (n : Int)
  | bool (b : Bool)
  | none
  | float (raw : String)
  | list (xs : PyList)
  | dict (entries : PyDict)
deriving DecidableEq

inductive PyList where
  | nil
  | cons (hd : PyVal) (tl : PyList)
deriving DecidableEq

inductive PyDict where
  | nil
  | cons (key : String) (val : PyVal) (tl : PyDict)
deriving DecidableEq

end

/-- Model of the Python exceptions that flow through this code base.
`clientError` is `botocore.exceptions.ClientError`; `connectionError` stands
for any raised exception that is not a `ClientError` and not raised by this
repository itself (e.g. `botocore`'s `EndpointConnectionError`);
`valueError` is `ValueError`; `schemaRegistryException` is the repository's
own `SchemaRegistryException`; `libraryError` stands for exceptions raised
inside the external codec libraries (`json`, `fastavro`, UTF-8 codecs). -/
inductive PyErr where
  | clientError (msg : String)
  | connectionError (msg : String)
  | valueError (msg : String)
  | schemaRegistryException (msg : String)
  | libraryError (msg : String)
deriving DecidableEq, Repr

/-- Model of Python `str(e)` on an exception: the message it carries. -/
def PyErr.text : PyErr → String
  | .clientError msg => msg
  | .connectionError msg => msg
  | .valueError msg => msg
  | .schemaRegistryException msg => msg
  | .libraryError msg => msg

/-- Python `dict` lookup (`d.get(k)` / `d[k]`) on a dict built by inserting
the recorded entries in order: the last binding of a key wins. -/
def PyDict.get : PyDict → String → Option PyVal
  | .nil, _ => Option.none
  | .cons k v tl, key =>
    match tl.get key with
    | some r => some r
    | Option.none => if k = key then some v else Option.none

/-- Python `d.get(k, default)`. -/
def PyDict.getD (d : PyDict) (k : String) (dflt : PyVal) : PyVal :=
  (d.get k).getD dflt

/-- Python `isinstance(v, int)`.  Note that Python `bool` is a subclass of
`int`, so `isinstance(True, int)` is `True`. -/
def PyVal.isIntInstance : PyVal → Bool
  | .int _ => true
  | .bool _ => true
  | _ => false

/-- The integer value of a `PyVal` that is an instance of `int`
(`True == 1`, `False == 0`); junk value `0` elsewhere. -/
def PyVal.toIntVal : PyVal → Int
  | .int n => n
  | .bool b => if b then 1 else 0
  | _ => 0

/-! ## model.py -/

/-- `SalesforceAudit` (model.py): a `@dataclass` with four fields.  The
Python class stores whatever values were passed to the constructor (only the
timestamp is validated), so the fields are modelled as `PyVal`. -/
structure SalesforceAudit where
  event_id : PyVal
  event_name : PyVal
  timestamp : PyVal
  event_details : PyVal
deriving DecidableEq

/-- Construction of a `SalesforceAudit`, i.e. the generated dataclass
constructor followed by `__post_init__` (model.py lines 17-22): it raises
`ValueError` when the timestamp is not an instance of `int` or is negative,
and otherwise stores the four arguments unchanged. -/
def SalesforceAudit.make (event_id event_name timestamp event_details : PyVal) :
    Except PyErr SalesforceAudit :=
  if ¬ timestamp.isIntInstance then
    .error (.valueError "timestamp must be an integer")
  else if timestamp.toIntVal < 0 then
    .error (.valueError "timestamp must be non-negative")
  else
    .ok ⟨event_id, event_name, timestamp, event_details⟩

/-- `SalesforceAudit.to_dict` (model.py lines 24-31). -/
def SalesforceAudit.to_dict (r : SalesforceAudit) : PyDict :=
  .cons "eventId" r.event_id
    (.cons "eventName" r.event_name
      (.cons "timestamp" r.timestamp
        (.cons "eventDetails" r.event_details .nil)))

/-- `SalesforceAudit.from_dict` (model.py lines 33-41): `data.get(key,
default)` for each field, then the validating constructor.  Calling it on a
non-dict raises `AttributeError` (`data.get` does not exist), modelled as a
`libraryError`. -/
def SalesforceAudit.from_dict : PyVal → Except PyErr SalesforceAudit
  | .dict data =>
    SalesforceAudit.make
      (data.getD "eventId" (.str ""))
      (data.getD "eventName" (.str ""))
      (data.getD "timestamp" (.int 0))
      (data.getD "eventDetails" (.str ""))
  | _ => .error (.libraryError "AttributeError: object has no attribute get")

/-! ## client.py -/

/-- Response of the AWS `glue` client's `get_schema` call, restricted to the
keys this repository reads.  `boto3` is external; well-formed responses are
assumed. -/
structure GetSchemaResponse where
  LatestSchemaVersion : Int
  DataFormat : String
deriving DecidableEq

/-- Response of the AWS `glue` client's `get_schema_version` call, restricted
to the key this repository reads: the schema definition text. -/
structure GetSchemaVersionResponse where
  SchemaDefinition : String
deriving DecidableEq

/-- Model of the remote `boto3` Glue call surface used on the serialization
path.  Each call either returns a response or raises: a `ClientError` (the
service answered with an error: not-found, permission, throttling) or any
other exception (e.g. a connection error). -/
structure GlueApi where
  getSchemaRaw : String → Except PyErr GetSchemaResponse
  getSchemaVersionRaw : String → Int → Except PyErr GetSchemaVersionResponse

/-- `GlueSchemaRegistryClient` (client.py): holds the registry name and the
underlying `boto3` Glue client. -/
structure GlueSchemaRegistryClient where
  registry_name : String
  glue_client : GlueApi

/-- `GlueSchemaRegistryClient.get_schema` (client.py lines 81-99): performs
the remote call; `except ClientError as e: raise
SchemaRegistryException(f"Failed to get schema: {e}")`.  Exceptions other
than `ClientError` are not caught and propagate unchanged. -/
def GlueSchemaRegistryClient.get_schema (c : GlueSchemaRegistryClient)
    (schema_name : String) : Except PyErr GetSchemaResponse :=
  match c.glue_client.getSchemaRaw schema_name with
  | .error (.clientError m) =>
    .error (.schemaRegistryException ("Failed to get schema: " ++ m))
  | r => r

/-- `GlueSchemaRegistryClient.get_schema_version` (client.py lines 101-121):
performs the remote call; `except ClientError as e: raise
SchemaRegistryException(f"Failed to get schema version: {e}")`.  Exceptions
other than `ClientError` are not caught and propagate unchanged. -/
def GlueSchemaRegistryClient.get_schema_version (c : GlueSchemaRegistryClient)
    (schema_name : String) (version_number : Int) :
    Except PyErr GetSchemaVersionResponse :=
  match c.glue_client.getSchemaVersionRaw schema_name version_number with
  | .error (.clientError m) =>
    .error (.schemaRegistryException ("Failed to get schema version: " ++ m))
  | r => r

/-! ## UTF-8 (model of Python `str.encode('utf-8')` / `bytes.decode('utf-8')`)

Byte strings are modelled as `List Nat` with every element below 256. -/

/-- UTF-8 encoding of one Unicode scalar value. -/
def utf8EncodeChar (n : Nat) : List Nat :=
  if n < 0x80 then [n]
  else if n < 0x800 then [0xC0 + n / 64, 0x80 + n % 64]
  else if n < 0x10000 then [0xE0 + n / 4096, 0x80 + n / 64 % 64, 0x80 + n % 64]
  else [0xF0 + n / 262144, 0x80 + n / 4096 % 64, 0x80 + n / 64 % 64, 0x80 + n % 64]

/-- Model of Python `str.encode('utf-8')`.  (A Lean `String` contains only
Unicode scalar values, exactly the strings Python can encode.) -/
def utf8Encode (s : String) : List Nat :=
  s.data.flatMap (fun c => utf8EncodeChar c.toNat)

/-- Worker for `utf8Decode`: a streaming strict UTF-8 decoder, one byte per
step.  `need` is the number of continuation bytes still expected, `val` the
partially assembled scalar value, `lo` the smallest scalar value that a
sequence of the current length may encode (for overlong rejection).  It
rejects truncated sequences, stray or missing continuation bytes, overlong
encodings, surrogates and values beyond `0x10FFFF`, accepting exactly the
byte strings CPython's strict `bytes.decode('utf-8')` accepts. -/
def utf8DecodeLoop : List Nat → Nat → Nat → Nat → List Char → Except PyErr String
  | [], 0, _, _, acc => .ok (String.mk acc.reverse)
  | [], _ + 1, _, _, _ => .error (.libraryError "UnicodeDecodeError: invalid utf-8")
  | b :: rest, 0, _, _, acc =>
    if b < 0x80 then utf8DecodeLoop rest 0 0 0 (Char.ofNat b :: acc)
    else if b < 0xC2 then .error (.libraryError "UnicodeDecodeError: invalid utf-8")
    else if b < 0xE0 then utf8DecodeLoop rest 1 (b - 0xC0) 0x80 acc
    else if b < 0xF0 then utf8DecodeLoop rest 2 (b - 0xE0) 0x800 acc
    else if b < 0xF5 then utf8DecodeLoop rest 3 (b - 0xF0) 0x10000 acc
    else .error (.libraryError "UnicodeDecodeError: invalid utf-8")
  | b :: rest, need + 1, val, lo, acc =>
    if 0x80 ≤ b ∧ b < 0xC0 then
      if need = 0 then
        if lo ≤ val * 64 + (b - 0x80) ∧
            (val * 64 + (b - 0x80) < 0xD800 ∨ 0xE000 ≤ val * 64 + (b - 0x80)) ∧
            val * 64 + (b - 0x80) < 0x110000 then
          utf8DecodeLoop rest 0 0 0 (Char.ofNat (val * 64 + (b - 0x80)) :: acc)
        else .error (.libraryError "UnicodeDecodeError: invalid utf-8")
      else utf8DecodeLoop rest need (val * 64 + (b - 0x80)) lo acc
    else .error (.libraryError "UnicodeDecodeError: invalid utf-8")

/-- Model of Python `bytes.decode('utf-8')` (strict). -/
def utf8Decode (l : List Nat) : Except PyErr String :=
  utf8DecodeLoop l 0 0 0 []

/-! ## Avro binary row encoding (model of `fastavro`)

`fastavro.schemaless_writer` / `fastavro.schemaless_reader` for the schema
fragment this repository exercises: a top-level `record` whose fields are of
primitive type `string` or `long`.  The wire format is the Avro binary
encoding: `long` is a zigzag-coded unsigned varint; `string` is a `long`
byte count followed by the UTF-8 bytes. -/

/-- Avro zigzag mapping of a (signed) long onto a non-negative integer. -/
def zigzagEncode (n : Int) : Nat :=
  if 0 ≤ n then (2 * n).toNat else (2 * (-n) - 1).toNat

/-- Inverse of the zigzag mapping. -/
def zigzagDecode (z : Nat) : Int :=
  if z % 2 = 0 then ((z / 2 : Nat) : Int) else -(((z / 2 : Nat) : Int) + 1)

/-- Worker for `varintEncode`, structurally recursive on a fuel bound (any
fuel above the value itself is enough, since the value shrinks by a factor
of 128 each step). -/
def varintEncodeAux : Nat → Nat → List Nat
  | 0, n => [n % 128]
  | fuel + 1, n => if n < 128 then [n] else (128 + n % 128) :: varintEncodeAux fuel (n / 128)

/-- Base-128 varint encoding (little-endian groups, high bit set on every
byte except the last). -/
def varintEncode (n : Nat) : List Nat :=
  varintEncodeAux n n

/-- Base-128 varint decoding from a byte stream; fails at end of input,
modelling `fastavro`'s read of a `long` hitting end-of-file. -/
def varintDecode : List Nat → Except PyErr (Nat × List Nat)
  | [] => .error (.libraryError "EOFError: reading long past end of data")
  | b :: rest =>
    if b < 128 then .ok (b, rest)
    else
      match varintDecode rest with
      | .ok (m, r) => .ok ((b - 128) + 128 * m, r)
      | .error e => .error e

/-- The byte sequence `write_long` emits for an in-range long: zigzag, then
base-128 varint. -/
def longBytes (n : Int) : List Nat :=
  varintEncode (zigzagEncode n)

/-- Whether an integer lies in the signed 64-bit range
`[-2^63, 2^63)` = `[-9223372036854775808, 9223372036854775808)`, decided
on the constructors of `Int` (`negSucc m` is `-(m+1)`, in range iff
`m < 2^63`); `int64InRange_iff` below states the arithmetic reading. -/
def int64InRange : Int → Bool
  | .ofNat m => decide (m < 9223372036854775808)
  | .negSucc m => decide (m < 9223372036854775808)

/-- Avro binary encoding of a `long` (`fastavro` `write_long`).  `fastavro`'s
long is 64-bit: the C extension the library ships (the repository pins
`fastavro>=1.8.0`, whose wheels install the compiled `_write` module)
converts the datum to a C `int64` and raises `OverflowError` outside
`[-2^63, 2^63)`.  Inside that range it emits the zigzag varint, which is
also exactly what the pure-Python fallback's `(n << 1) ^ (n >> 63)` computes
there: for `0 ≤ n < 2^63` the arithmetic shift `n >> 63` is `0` and the
xor gives `2n`; for `-2^63 ≤ n < 0` it is `-1` and the xor gives
`-2n - 1`. -/
def writeLong (n : Int) : Except PyErr (List Nat) :=
  if int64InRange n then .ok (longBytes n)
  else .error (.libraryError "OverflowError: int too big to convert")

/-- `fastavro` `write_utf8`: `datum.encode()`, then the byte count written
as a `long`, then the bytes.  The count is a CPython `len` — a
`Py_ssize_t`, so in the program it always lies inside the 64-bit range —
but the model routes it through `writeLong`'s conversion all the same. -/
def writeUtf8 (s : String) : Except PyErr (List Nat) :=
  match writeLong ((utf8Encode s).length : Int) with
  | .ok lb => .ok (lb ++ utf8Encode s)
  | .error e => .error e

/-- Avro binary decoding of a `long` (`fastavro` `read_long`). -/
def readLong (l : List Nat) : Except PyErr (Int × List Nat) :=
  match varintDecode l with
  | .ok (z, r) => .ok (zigzagDecode z, r)
  | .error e => .error e

/-- Model of Python `fo.read(n)` on a byte stream: a negative count reads
everything, and fewer bytes than requested are returned near the end of the
stream, both without error — exactly CPython's file-object semantics that
`fastavro` relies on. -/
def pyRead (count : Int) (s : List Nat) : List Nat × List Nat :=
  if count < 0 then (s, []) else (s.take count.toNat, s.drop count.toNat)

/-- The Avro primitive types appearing in the `SalesforceAudit` schema.
`fastavro` supports more; this model covers the fragment the repository's
schema definitions use. -/
inductive AvroType where
  | string
  | long
deriving DecidableEq

/-- A parsed Avro record schema: the field names with their types, in schema
order. -/
abbrev AvroFields := List (String × AvroType)

/-- `fastavro` `write_data` for one datum against a primitive schema type.
Writing a `string` requires a Python `str` (`datum.encode()` raises
otherwise) and writes the UTF-8 byte count as a `long` followed by the
bytes (the count is a CPython `len`, a `Py_ssize_t`, so in the program it
is always inside the 64-bit range — the model routes it through
`writeLong` all the same); writing a `long` requires an instance of `int`
(so a Python `bool` is accepted and written as 0 or 1) and goes through
`write_long`'s 64-bit conversion. -/
def writeDatum : AvroType → PyVal → Except PyErr (List Nat)
  | .string, .str s => writeUtf8 s
  | .string, _ => .error (.libraryError "AttributeError: datum has no attribute encode")
  | .long, v =>
    if v.isIntInstance then writeLong v.toIntVal
    else .error (.libraryError "TypeError: datum is not an int")

/-- `fastavro` `read_data` for one datum of a primitive schema type.
Reading a `string` reads a `long` byte count, takes that many bytes off the
stream (`fo.read`, which silently returns fewer near the end) and decodes
them as UTF-8. -/
def readDatum : AvroType → List Nat → Except PyErr (PyVal × List Nat)
  | .long, l =>
    match readLong l with
    | .ok (n, r) => .ok (.int n, r)
    | .error e => .error e
  | .string, l =>
    match readLong l with
    | .ok (n, r) =>
      match pyRead n r with
      | (bs, r2) =>
        match utf8Decode bs with
        | .ok s => .ok (.str s, r2)
        | .error e => .error e
    | .error e => .error e

/-- `fastavro` `write_record` as used by `schemaless_writer`: writes the
record's fields in schema order, looking each field name up in the datum
dict; a missing name fails (the library falls through to writing `None`,
which raises for the primitive types modelled here). -/
def writeRecord : AvroFields → PyDict → Except PyErr (List Nat)
  | [], _ => .ok []
  | (nm, ty) :: fs, d =>
    match d.get nm with
    | Option.none => .error (.libraryError ("KeyError: " ++ nm))
    | some v =>
      match writeDatum ty v with
      | .error e => .error e
      | .ok bs =>
        match writeRecord fs d with
        | .error e => .error e
        | .ok rest => .ok (bs ++ rest)

/-- `fastavro` `read_record` as used by `schemaless_reader`: reads the
fields in schema order into a dict. -/
def readRecord : AvroFields → List Nat → Except PyErr (PyDict × List Nat)
  | [], l => .ok (.nil, l)
  | (nm, ty) :: fs, l =>
    match readDatum ty l with
    | .error e => .error e
    | .ok (v, r) =>
      match readRecord fs r with
      | .error e => .error e
      | .ok (d, r2) => .ok (.cons nm v d, r2)

/-- `fastavro.schemaless_writer`: just the record body, no header. -/
def schemalessWriter (fields : AvroFields) (datum : PyDict) : Except PyErr (List Nat) :=
  writeRecord fields datum

/-- `fastavro.schemaless_reader`: reads one record from the stream and
ignores any trailing bytes, as the library does. -/
def schemalessReader (fields : AvroFields) (data : List Nat) : Except PyErr PyDict :=
  match readRecord fields data with
  | .ok (d, _) => .ok d
  | .error e => .error e

/-- Worker for `parse_schema`: the `fields` entry of a record schema, each a
dict with a `name` and a primitive `type`. -/
def parseFields : PyList → Except PyErr AvroFields
  | .nil => .ok []
  | .cons f fl =>
    match f with
    | .dict fd =>
      match fd.get "name", fd.get "type" with
      | some (.str nm), some (.str "string") =>
        match parseFields fl with
        | .ok fs => .ok ((nm, .string) :: fs)
        | .error e => .error e
      | some (.str nm), some (.str "long") =>
        match parseFields fl with
        | .ok fs => .ok ((nm, .long) :: fs)
        | .error e => .error e
      | _, _ => .error (.libraryError "SchemaParseException: unsupported field")
    | _ => .error (.libraryError "SchemaParseException: field is not a dict")

/-- Model of `fastavro.parse_schema` on the (already `json.loads`-decoded)
schema definition, restricted to the fragment this repository's schemas
exercise: a top-level `record` with primitive `string`/`long` fields. -/
def parse_schema : PyVal → Except PyErr AvroFields
  | .dict d =>
    match d.get "type", d.get "fields" with
    | some (.str "record"), some (.list fl) => parseFields fl
    | _, _ => .error (.libraryError "SchemaParseException: not a record schema")
  | _ => .error (.libraryError "SchemaParseException: schema is not a dict")

/-! ## JSON text codec (model of the Python `json` module)

`json.dumps` and `json.loads` as used by json_serializer.py and by
avro_serializer.py (for the schema definition text).  The model covers the
JSON value grammar over `PyVal`; `dumps` escapes exactly the characters that
must be escaped (using the `\u00XX` form for control characters), which is
valid JSON output equivalent to CPython's. -/

/-- Lowercase hexadecimal digit. -/
def hexDigitChar (n : Nat) : Char :=
  Char.ofNat (if n < 10 then 48 + n else 87 + n)

/-- JSON string escaping for one character: `"` and `\` get a backslash
escape, control characters an `\u00XX` escape, everything else is emitted
verbatim. -/
def escapeChar (c : Char) : List Char :=
  if c = '"' then ['\\', '"']
  else if c = '\\' then ['\\', '\\']
  else if c.toNat < 0x20 then
    ['\\', 'u', '0', '0', hexDigitChar (c.toNat / 16), hexDigitChar (c.toNat % 16)]
  else [c]

/-- A JSON string literal, quotes included. -/
def encodeJString (s : String) : List Char :=
  '"' :: (s.data.flatMap escapeChar ++ ['"'])

/-- Worker for `natToRevDigits`, structurally recursive on a fuel bound
(any fuel above the value itself is enough). -/
def natToRevDigitsAux : Nat → Nat → List Nat
  | 0, _ => []
  | fuel + 1, n => if n = 0 then [] else n % 10 :: natToRevDigitsAux fuel (n / 10)

/-- Decimal digits of `n`, least significant first (empty for 0). -/
def natToRevDigits (n : Nat) : List Nat :=
  natToRevDigitsAux n n

/-- Decimal digit character. -/
def decDigitChar (d : Nat) : Char :=
  Char.ofNat (48 + d)

/-- Decimal notation of a natural number. -/
def natToChars (n : Nat) : List Char :=
  if n = 0 then ['0'] else (natToRevDigits n).reverse.map decDigitChar

/-- Decimal notation of an integer (Python `repr` of an `int`). -/
def intToChars (n : Int) : List Char :=
  if n < 0 then '-' :: natToChars (-n).toNat else natToChars n.toNat

mutual

/-- Model of `json.dumps` (as a character list), with CPython's default
separators `", "` and `": "`. -/
def jsonDumpsVal : PyVal → List Char
  | .str s => encodeJString s
  | .int n => intToChars n
  | .bool b => if b then ['t', 'r', 'u', 'e'] else ['f', 'a', 'l', 's', 'e']
  | .none => ['n', 'u', 'l', 'l']
  | .float raw => raw.data
  | .list xs => '[' :: (jsonDumpsList xs ++ [']'])
  | .dict d => '{' :: (jsonDumpsMembers d ++ ['}'])

/-- Comma-separated array items. -/
def jsonDumpsList : PyList → List Char
  | .nil => []
  | .cons x .nil => jsonDumpsVal x
  | .cons x tl => jsonDumpsVal x ++ (',' :: ' ' :: jsonDumpsList tl)

/-- Comma-separated `"key": value` members. -/
def jsonDumpsMembers : PyDict → List Char
  | .nil => []
  | .cons k v .nil => encodeJString k ++ (':' :: ' ' :: jsonDumpsVal v)
  | .cons k v tl =>
    encodeJString k ++ (':' :: ' ' :: jsonDumpsVal v) ++ (',' :: ' ' :: jsonDumpsMembers tl)

end

/-- Model of Python `json.dumps`. -/
def jsonDumps (v : PyVal) : String :=
  String.mk (jsonDumpsVal v)

/-- JSON whitespace. -/
def isJsonWs (c : Char) : Bool :=
  c = ' ' ∨ c = '\t' ∨ c = '\n' ∨ c = Char.ofNat 13

/-- Skip JSON whitespace. -/
def skipWs (l : List Char) : List Char :=
  l.dropWhile isJsonWs

/-- Value of a hexadecimal digit character. -/
def hexDigitVal (c : Char) : Option Nat :=
  if '0' ≤ c ∧ c ≤ '9' then some (c.toNat - 48)
  else if 'a' ≤ c ∧ c ≤ 'f' then some (c.toNat - 87)
  else if 'A' ≤ c ∧ c ≤ 'F' then some (c.toNat - 55)
  else Option.none

/-- Value of a 4-digit hexadecimal escape. -/
def hex4 (a b c d : Char) : Option Nat := do
  let x1 ← hexDigitVal a
  let x2 ← hexDigitVal b
  let x3 ← hexDigitVal c
  let x4 ← hexDigitVal d
  pure (x1 * 4096 + x2 * 256 + x3 * 16 + x4)

/-- JSON string-literal body scanner, after the opening quote: handles the
backslash escapes and `\uXXXX` and rejects raw control characters, as
CPython's strict `json.loads` does.  (Model restriction: CPython also
accepts `\uXXXX` escapes of surrogate code points — pairing adjacent ones,
keeping lone ones as a lone-surrogate `str`, which a Lean `String` cannot
represent; this model rejects those escapes.  No code path in the
repository produces one.) -/
def parseJString : List Char → List Char → Except PyErr (String × List Char)
  | _, [] => .error (.libraryError "json.JSONDecodeError: Unterminated string")
  | acc, c :: rest =>
    if c = '"' then .ok (String.mk acc.reverse, rest)
    else if c = '\\' then
      match rest with
      | [] => .error (.libraryError "json.JSONDecodeError: Unterminated string")
      | e :: rest2 =>
        if e = '"' then parseJString ('"' :: acc) rest2
        else if e = '\\' then parseJString ('\\' :: acc) rest2
        else if e = '/' then parseJString ('/' :: acc) rest2
        else if e = 'b' then parseJString (Char.ofNat 8 :: acc) rest2
        else if e = 'f' then parseJString (Char.ofNat 12 :: acc) rest2
        else if e = 'n' then parseJString ('\n' :: acc) rest2
        else if e = 'r' then parseJString (Char.ofNat 13 :: acc) rest2
        else if e = 't' then parseJString (Char.ofNat 9 :: acc) rest2
        else if e = 'u' then
          match rest2 with
          | h1 :: h2 :: h3 :: h4 :: rest3 =>
            match hex4 h1 h2 h3 h4 with
            | Option.none =>
              .error (.libraryError "json.JSONDecodeError: Invalid \\uXXXX escape")
            | some n =>
              if n < 0xD800 ∨ 0xE000 ≤ n then parseJString (Char.ofNat n :: acc) rest3
              else .error (.libraryError "json.JSONDecodeError: Surrogate escape")
          | _ => .error (.libraryError "json.JSONDecodeError: Invalid \\uXXXX escape")
        else .error (.libraryError "json.JSONDecodeError: Invalid \\escape")
    else if c.toNat < 0x20 then
      .error (.libraryError "json.JSONDecodeError: Invalid control character")
    else parseJString (c :: acc) rest

/-- Characters that can occur in a JSON number token. -/
def isNumChar (c : Char) : Bool :=
  c.isDigit || c = '-' || c = '+' || c = '.' || c = 'e' || c = 'E'

/-- Numeric value of a digit character. -/
def digitVal (c : Char) : Nat :=
  c.toNat - 48

/-- Value of a big-endian list of decimal digit characters. -/
def decimalVal (ds : List Char) : Nat :=
  ds.foldl (fun a c => a * 10 + digitVal c) 0

/-- Chomp one-or-more digits off a token. -/
def chompDigits1 : List Char → Option (List Char)
  | c :: r => if c.isDigit then some (r.dropWhile Char.isDigit) else Option.none
  | [] => Option.none

/-- Chomp the integer part `0 | [1-9][0-9]*` of a JSON number. -/
def chompUInt : List Char → Option (List Char)
  | c :: r =>
    if c = '0' then some r
    else if c.isDigit then some (r.dropWhile Char.isDigit)
    else Option.none
  | [] => Option.none

/-- Chomp an optional fraction part `.[0-9]+`. -/
def chompFrac (l : List Char) : Option (List Char) :=
  if l.head? = some '.' then chompDigits1 l.tail else some l

/-- Chomp an optional exponent part `[eE][+-]?[0-9]+`. -/
def chompExp : List Char → Option (List Char)
  | c :: r =>
    if c = 'e' ∨ c = 'E' then
      match r with
      | s :: r2 => if s = '+' ∨ s = '-' then chompDigits1 r2 else chompDigits1 (s :: r2)
      | [] => Option.none
    else some (c :: r)
  | [] => some []

/-- Whether a token is exactly a JSON number. -/
def isJsonNumberToken (l : List Char) : Bool :=
  let l1 := if l.head? = some '-' then l.tail else l
  match chompUInt l1 with
  | some r =>
    match chompFrac r with
    | some r2 =>
      match chompExp r2 with
      | some [] => true
      | _ => false
    | Option.none => false
  | Option.none => false

/-- JSON number scanner: takes the maximal run of number characters,
validates it against the JSON number grammar, and yields a Python `int` for
an integer literal and a Python `float` (carried by its literal text) for a
literal with a fraction or exponent part. -/
def parseNumber (l : List Char) : Except PyErr (PyVal × List Char) :=
  let tok := l.takeWhile isNumChar
  let rest := l.dropWhile isNumChar
  if tok.isEmpty then .error (.libraryError "json.JSONDecodeError: Expecting value")
  else if ¬ isJsonNumberToken tok then
    .error (.libraryError "json.JSONDecodeError: Expecting value")
  else if tok.any (fun c => c = '.' ∨ c = 'e' ∨ c = 'E') then
    .ok (.float (String.mk tok), rest)
  else if tok.head? = some '-' then .ok (.int (-(decimalVal tok.tail : Int)), rest)
  else .ok (.int (decimalVal tok : Int), rest)

mutual

/-- Model of the CPython `json.loads` recursive-descent value scanner.  The
fuel argument bounds recursion depth, playing the role of CPython's
recursion limit; `jsonLoads` supplies a fuel far larger than any payload in
scope. -/
def parseVal : Nat → List Char → Except PyErr (PyVal × List Char)
  | 0, _ => .error (.libraryError "RecursionError: maximum recursion depth exceeded")
  | fuel + 1, l =>
    match skipWs l with
    | '"' :: r =>
      match parseJString [] r with
      | .ok (s, r2) => .ok (.str s, r2)
      | .error e => .error e
    | '{' :: r =>
      match skipWs r with
      | '}' :: r2 => .ok (.dict .nil, r2)
      | r2 =>
        match parseMembers fuel r2 with
        | .ok (d, r3) => .ok (.dict d, r3)
        | .error e => .error e
    | '[' :: r =>
      match skipWs r with
      | ']' :: r2 => .ok (.list .nil, r2)
      | r2 =>
        match parseItems fuel r2 with
        | .ok (xs, r3) => .ok (.list xs, r3)
        | .error e => .error e
    | 't' :: 'r' :: 'u' :: 'e' :: r => .ok (.bool true, r)
    | 'f' :: 'a' :: 'l' :: 's' :: 'e' :: r => .ok (.bool false, r)
    | 'n' :: 'u' :: 'l' :: 'l' :: r => .ok (.none, r)
    | l2 => parseNumber l2

/-- One or more `"key": value` members followed by `}`. -/
def parseMembers : Nat → List Char → Except PyErr (PyDict × List Char)
  | 0, _ => .error (.libraryError "RecursionError: maximum recursion depth exceeded")
  | fuel + 1, l =>
    match skipWs l with
    | '"' :: r =>
      match parseJString [] r with
      | .error e => .error e
      | .ok (k, r2) =>
        match skipWs r2 with
        | ':' :: r3 =>
          match parseVal fuel r3 with
          | .error e => .error e
          | .ok (v, r4) =>
            match skipWs r4 with
            | ',' :: r5 =>
              match parseMembers fuel r5 with
              | .ok (d, r6) => .ok (.cons k v d, r6)
              | .error e => .error e
            | '}' :: r5 => .ok (.cons k v .nil, r5)
            | _ => .error (.libraryError "json.JSONDecodeError: Expecting , delimiter")
        | _ => .error (.libraryError "json.JSONDecodeError: Expecting : delimiter")
    | _ =>
      .error
        (.libraryError
          "json.JSONDecodeError: Expecting property name enclosed in double quotes")

/-- One or more array items followed by `]`. -/
def parseItems : Nat → List Char → Except PyErr (PyList × List Char)
  | 0, _ => .error (.libraryError "RecursionError: maximum recursion depth exceeded")
  | fuel + 1, l =>
    match parseVal fuel l with
    | .error e => .error e
    | .ok (v, r) =>
      match skipWs r with
      | ',' :: r2 =>
        match parseItems fuel r2 with
        | .ok (xs, r3) => .ok (.cons v xs, r3)
        | .error e => .error e
      | ']' :: r2 => .ok (.cons v .nil, r2)
      | _ => .error (.libraryError "json.JSONDecodeError: Expecting , delimiter")

end

/-- A `PyVal` that is a Python `str` or a non-`bool` `int` — the value
shapes `SalesforceAudit.to_dict` produces on a record whose fields respect
the data model. -/
def PyValIsScalar (v : PyVal) : Prop :=
  (∃ s, v = .str s) ∨ (∃ n, v = .int n)

/-- Model of Python `json.loads`: parse one value, then require only
whitespace to remain. -/
def jsonLoads (s : String) : Except PyErr PyVal :=
  match parseVal 1000000 s.data with
  | .error e => .error e
  | .ok (v, rest) =>
    if skipWs rest = [] then .ok v
    else .error (.libraryError "json.JSONDecodeError: Extra data")

/-! ## avro_serializer.py and json_serializer.py -/

/-- Python `record['k']`: raises `KeyError` when the key is absent. -/
def PyDict.index (d : PyDict) (k : String) : Except PyErr PyVal :=
  match d.get k with
  | some v => .ok v
  | Option.none => .error (.libraryError ("KeyError: " ++ k))

/-- `AvroSerializer.serialize` (avro_serializer.py lines 16-57): fetch the
schema, fetch its latest version's definition, `json.loads` and
`parse_schema` it, build the wire-name record dict from the audit event, and
write a schemaless Avro row; the surrounding `except Exception` wraps every
failure into `SchemaRegistryException(f"Failed to serialize SalesforceAudit:
{e}")`. -/
def AvroSerializer.serialize (client : GlueSchemaRegistryClient)
    (schema_name : String) (audit_event : SalesforceAudit) :
    Except PyErr (List Nat) :=
  Except.mapError
    (fun e => .schemaRegistryException ("Failed to serialize SalesforceAudit: " ++ e.text))
    (do
      let schema_response ← client.get_schema schema_name
      let schema_version_response ←
        client.get_schema_version schema_name schema_response.LatestSchemaVersion
      let schema_dict ← jsonLoads schema_version_response.SchemaDefinition
      let avro_schema ← parse_schema schema_dict
      let record : PyDict :=
        .cons "eventId" audit_event.event_id
          (.cons "eventName" audit_event.event_name
            (.cons "timestamp" audit_event.timestamp
              (.cons "eventDetails" audit_event.event_details .nil)))
      schemalessWriter avro_schema record)

/-- `AvroSerializer.deserialize` (avro_serializer.py lines 75-99): fetch and
parse the schema as in `serialize`, read a schemaless Avro row, and build a
`SalesforceAudit` from the four expected wire names (a `dict` indexing
operation, so a missing name raises `KeyError`); the surrounding `except
Exception` wraps every failure into `SchemaRegistryException(f"Failed to
deserialize SalesforceAudit: {e}")`. -/
def AvroSerializer.deserialize (client : GlueSchemaRegistryClient)
    (schema_name : String) (data : List Nat) :
    Except PyErr SalesforceAudit :=
  Except.mapError
    (fun e => .schemaRegistryException ("Failed to deserialize SalesforceAudit: " ++ e.text))
    (do
      let schema_response ← client.get_schema schema_name
      let schema_version_response ←
        client.get_schema_version schema_name schema_response.LatestSchemaVersion
      let schema_dict ← jsonLoads schema_version_response.SchemaDefinition
      let avro_schema ← parse_schema schema_dict
      let record ← schemalessReader avro_schema data
      let event_id ← record.index "eventId"
      let event_name ← record.index "eventName"
      let timestamp ← record.index "timestamp"
      let event_details ← record.index "eventDetails"
      SalesforceAudit.make event_id event_name timestamp event_details)

/-- `JsonSerializer.serialize` (json_serializer.py lines 14-42): fetch the
schema and its latest version (fetched but not used further), then
`json.dumps(audit_event.to_dict()).encode('utf-8')`; the surrounding `except
Exception` wraps every failure into `SchemaRegistryException(f"Failed to
serialize SalesforceAudit to JSON: {e}")`. -/
def JsonSerializer.serialize (client : GlueSchemaRegistryClient)
    (schema_name : String) (audit_event : SalesforceAudit) :
    Except PyErr (List Nat) :=
  Except.mapError
    (fun e =>
      .schemaRegistryException ("Failed to serialize SalesforceAudit to JSON: " ++ e.text))
    (do
      let schema_response ← client.get_schema schema_name
      let _schema_version_response ←
        client.get_schema_version schema_name schema_response.LatestSchemaVersion
      pure (utf8Encode (jsonDumps (.dict audit_event.to_dict))))

/-- `JsonSerializer.deserialize` (json_serializer.py lines 44-73): fetch the
schema and its latest version (fetched but not used further), then
`data.decode('utf-8')`, `json.loads`, and `SalesforceAudit.from_dict`; the
surrounding `except Exception` wraps every failure into
`SchemaRegistryException(f"Failed to deserialize JSON to SalesforceAudit:
{e}")`. -/
def JsonSerializer.deserialize (client : GlueSchemaRegistryClient)
    (schema_name : String) (data : List Nat) :
    Except PyErr SalesforceAudit :=
  Except.mapError
    (fun e =>
      .schemaRegistryException ("Failed to deserialize JSON to SalesforceAudit: " ++ e.text))
    (do
      let schema_response ← client.get_schema schema_name
      let _schema_version_response ←
        client.get_schema_version schema_name schema_response.LatestSchemaVersion
      let json_str ← utf8Decode data
      let data_dict ← jsonLoads json_str
      SalesforceAudit.from_dict data_dict)

/-! ## Observation helpers and concrete fixtures -/

/-- The schema-definition text a serializer call observes: the composition
of the two registry calls at the head of every serialize/deserialize
method. -/
def fetchedSchemaDefinition (client : GlueSchemaRegistryClient)
    (schema_name : String) : Except PyErr String := do
  let schema_response ← client.get_schema schema_name
  let schema_version_response ←
    client.get_schema_version schema_name schema_response.LatestSchemaVersion
  pure schema_version_response.SchemaDefinition

/-- The parsed `SalesforceAudit` Avro schema: four primitive fields under
the fixed wire names, in declaration order. -/
def salesforceFields : AvroFields :=
  [("eventId", .string), ("eventName", .string), ("timestamp", .long),
    ("eventDetails", .string)]

/-- The `SalesforceAudit` Avro schema definition text, as stored in the
registry. -/
def salesforceSchemaText : String :=
  "\x7b\"type\": \"record\", \"name\": \"SalesforceAudit\", \"fields\": [\x7b\"name\": \"eventId\", \"type\": \"string\"\x7d, \x7b\"name\": \"eventName\", \"type\": \"string\"\x7d, \x7b\"name\": \"timestamp\", \"type\": \"long\"\x7d, \x7b\"name\": \"eventDetails\", \"type\": \"string\"\x7d]\x7d"

/-- A healthy remote registry holding the `SalesforceAudit` schema. -/
def goodApi : GlueApi where
  getSchemaRaw := fun _ => .ok ⟨1, "AVRO"⟩
  getSchemaVersionRaw := fun _ _ => .ok ⟨salesforceSchemaText⟩

/-- A client over the healthy registry. -/
def goodClient : GlueSchemaRegistryClient :=
  ⟨"glue-schema-registry-ansumanroy-6219", goodApi⟩

/-- A registry whose latest schema for every name is a record schema with a
single field `foo` — a well-formed definition that does not match the
`SalesforceAudit` record. -/
def fooApi : GlueApi where
  getSchemaRaw := fun _ => .ok ⟨1, "AVRO"⟩
  getSchemaVersionRaw := fun _ _ =>
    .ok ⟨"\x7b\"type\": \"record\", \"name\": \"Foo\", \"fields\": [\x7b\"name\": \"foo\", \"type\": \"string\"\x7d]\x7d"⟩

/-- A client over the `foo`-schema registry. -/
def fooClient : GlueSchemaRegistryClient :=
  ⟨"glue-schema-registry-ansumanroy-6219", fooApi⟩

/-- A remote whose calls fail with a connection error (not a
`ClientError`). -/
def connFailApi : GlueApi where
  getSchemaRaw := fun _ =>
    .error (.connectionError "EndpointConnectionError: Could not connect")
  getSchemaVersionRaw := fun _ _ =>
    .error (.connectionError "EndpointConnectionError: Could not connect")

/-- A client over the unreachable remote. -/
def connFailClient : GlueSchemaRegistryClient :=
  ⟨"glue-schema-registry-ansumanroy-6219", connFailApi⟩

/-- A remote whose calls fail with a service `ClientError` (as for a
missing schema or denied permission). -/
def clientErrApi : GlueApi where
  getSchemaRaw := fun _ =>
    .error (.clientError "An error occurred (EntityNotFoundException)")
  getSchemaVersionRaw := fun _ _ =>
    .error (.clientError "An error occurred (EntityNotFoundException)")

/-- A client over the `ClientError`-failing remote. -/
def clientErrClient : GlueSchemaRegistryClient :=
  ⟨"glue-schema-registry-ansumanroy-6219", clientErrApi⟩

/-- The concrete record of the spec's round-trip scenario. -/
def sampleRecord : SalesforceAudit :=
  ⟨.str "evt-001", .str "Create", .int 1609459200000, .str "Created new account"⟩

end GlueSchemaRegistry
namespace GlueSchemaRegistry
theorem char_toNat_ofNat_of_valid (n : Nat) (h : n.isValidChar) : (Char.ofNat n).toNat = n := by
  unfold Char.ofNat
  rw [dif_pos h]
  unfold Char.ofNatAux Char.toNat
  simp only [UInt32.toNat, BitVec.toNat]
  rfl
theorem char_valid (c : Char) : c.toNat < 55296 ∨ (57343 < c.toNat ∧ c.toNat < 1114112) := c.valid
theorem utf8DecodeLoop_encodeChar (c : Char) (bs : List Nat) (v lo : Nat) (acc : List Char) :
    utf8DecodeLoop (utf8EncodeChar c.toNat ++ bs) 0 v lo acc = utf8DecodeLoop bs 0 0 0 (c :: acc) := by
  have hv := char_valid c
  have hofn : Char.ofNat c.toNat = c := Char.ofNat_toNat c
  rcases Nat.lt_or_ge c.toNat 0x80 with h1 | h1
  · rw [utf8EncodeChar, if_pos h1]
    show utf8DecodeLoop (c.toNat :: bs) 0 v lo acc = _
    rw [utf8DecodeLoop, if_pos h1, hofn]
  · rcases Nat.lt_or_ge c.toNat 0x800 with h2 | h2
    · rw [utf8EncodeChar, if_neg (by omega), if_pos h2]
      show utf8DecodeLoop (_ :: _ :: bs) 0 v lo acc = _
      rw [utf8DecodeLoop]
      rw [if_neg (by omega), if_neg (by omega), if_pos (by omega)]
      rw [utf8DecodeLoop]
      rw [if_pos (by constructor <;> omega), if_pos rfl,
        if_pos (by refine ⟨by omega, by omega, by omega⟩)]
      have harith : (0xC0 + c.toNat / 64 - 0xC0) * 64 + (0x80 + c.toNat % 64 - 0x80) = c.toNat := by
        omega
      rw [harith, hofn]
    · rcases Nat.lt_or_ge c.toNat 0x10000 with h3 | h3
      · rw [utf8EncodeChar, if_neg (by omega), if_neg (by omega), if_pos h3]
        show utf8DecodeLoop (_ :: _ :: _ :: bs) 0 v lo acc = _
        rw [utf8DecodeLoop]
        rw [if_neg (by omega), if_neg (by omega), if_neg (by omega), if_pos (by omega)]
        rw [utf8DecodeLoop]
        rw [if_pos (by constructor <;> omega), if_neg (by omega)]
        rw [utf8DecodeLoop]
        rw [if_pos (by constructor <;> omega), if_pos rfl,
          if_pos (by refine ⟨by omega, by omega, by omega⟩)]
        have harith : ((0xE0 + c.toNat / 4096 - 0xE0) * 64 + (0x80 + c.toNat / 64 % 64 - 0x80)) * 64
            + (0x80 + c.toNat % 64 - 0x80) = c.toNat := by omega
        rw [harith, hofn]
      · rw [utf8EncodeChar, if_neg (by omega), if_neg (by omega), if_neg (by omega)]
        show utf8DecodeLoop (_ :: _ :: _ :: _ :: bs) 0 v lo acc = _
        rw [utf8DecodeLoop]
        rw [if_neg (by omega), if_neg (by omega), if_neg (by omega), if_neg (by omega),
          if_pos (by omega)]
        rw [utf8DecodeLoop]
        rw [if_pos (by constructor <;> omega), if_neg (by omega)]
        rw [utf8DecodeLoop]
        rw [if_pos (by constructor <;> omega), if_neg (by omega)]
        rw [utf8DecodeLoop]
        rw [if_pos (by constructor <;> omega), if_pos rfl,
          if_pos (by refine ⟨by omega, by omega, by omega⟩)]
        have harith : (((0xF0 + c.toNat / 262144 - 0xF0) * 64 + (0x80 + c.toNat / 4096 % 64 - 0x80)) * 64
            + (0x80 + c.toNat / 64 % 64 - 0x80)) * 64 + (0x80 + c.toNat % 64 - 0x80) = c.toNat := by
          omega
        rw [harith, hofn]
end GlueSchemaRegistry
namespace GlueSchemaRegistry

theorem utf8DecodeLoop_encode_list (cs : List Char) (bs : List Nat) (acc : List Char) :
    utf8DecodeLoop (cs.flatMap (fun c => utf8EncodeChar c.toNat) ++ bs) 0 0 0 acc =
      utf8DecodeLoop bs 0 0 0 (cs.reverse ++ acc) := by
  induction cs generalizing acc with
  | nil => simp
  | cons c cs ih =>
    rw [List.flatMap_cons, List.append_assoc, utf8DecodeLoop_encodeChar, ih]
    simp

theorem utf8Decode_encode (s : String) : utf8Decode (utf8Encode s) = .ok s := by
  unfold utf8Decode utf8Encode
  rw [← List.append_nil (s.data.flatMap fun c => utf8EncodeChar c.toNat)]
  rw [utf8DecodeLoop_encode_list]
  rw [utf8DecodeLoop]
  simp

theorem zigzagDecode_encode (n : Int) : zigzagDecode (zigzagEncode n) = n := by
  unfold zigzagEncode zigzagDecode
  split <;> split <;> omega

theorem varintDecode_encodeAux (fuel : Nat) : ∀ (n : Nat), n ≤ fuel → ∀ (rest : List Nat),
    varintDecode (varintEncodeAux fuel n ++ rest) = .ok (n, rest) := by
  induction fuel with
  | zero =>
    intro n h rest
    have hn : n = 0 := by omega
    subst hn
    rw [varintEncodeAux]
    show varintDecode (0 % 128 :: rest) = _
    rw [varintDecode]
    norm_num
  | succ f ih =>
    intro n h rest
    rw [varintEncodeAux]
    by_cases h128 : n < 128
    · rw [if_pos h128]
      show varintDecode (n :: rest) = _
      rw [varintDecode, if_pos h128]
    · rw [if_neg h128]
      show varintDecode ((128 + n % 128) :: (varintEncodeAux f (n / 128) ++ rest)) = _
      rw [varintDecode, if_neg (by omega), ih (n / 128) (by omega) rest]
      show Except.ok ((128 + n % 128 - 128) + 128 * (n / 128), rest) = _
      have harith : (128 + n % 128 - 128) + 128 * (n / 128) = n := by omega
      rw [harith]

theorem varintDecode_encode (n : Nat) (rest : List Nat) :
    varintDecode (varintEncode n ++ rest) = .ok (n, rest) :=
  varintDecode_encodeAux n n le_rfl rest

theorem readLong_longBytes (n : Int) (rest : List Nat) :
    readLong (longBytes n ++ rest) = .ok (n, rest) := by
  unfold readLong longBytes
  rw [varintDecode_encode]
  show Except.ok (zigzagDecode (zigzagEncode n), rest) = _
  rw [zigzagDecode_encode]

theorem int64InRange_iff (n : Int) :
    int64InRange n = true ↔
      -9223372036854775808 ≤ n ∧ n < 9223372036854775808 := by
  cases n with
  | ofNat m =>
    simp only [int64InRange, decide_eq_true_eq, Int.ofNat_eq_coe]
    omega
  | negSucc m =>
    simp only [int64InRange, decide_eq_true_eq, Int.negSucc_eq]
    omega

theorem writeLong_ok (n : Int) (h : -9223372036854775808 ≤ n ∧ n < 9223372036854775808) :
    writeLong n = .ok (longBytes n) := by
  unfold writeLong
  rw [if_pos ((int64InRange_iff n).mpr h)]

theorem writeLong_ok_inv (n : Int) (bs : List Nat) (h : writeLong n = .ok bs) :
    (-9223372036854775808 ≤ n ∧ n < 9223372036854775808) ∧ bs = longBytes n := by
  unfold writeLong at h
  cases hb : int64InRange n with
  | true =>
    rw [if_pos hb] at h
    exact ⟨(int64InRange_iff n).mp hb, ((Except.ok.injEq _ _).mp h).symm⟩
  | false =>
    rw [if_neg (by simp [hb])] at h
    exact absurd h (by simp)

theorem writeLong_overflow :
    writeLong 9223372036854775808 =
      .error (.libraryError "OverflowError: int too big to convert") := rfl

theorem writeUtf8_ok (s : String) (hs : ((utf8Encode s).length : Int) < 9223372036854775808) :
    writeUtf8 s = .ok (longBytes ((utf8Encode s).length : Int) ++ utf8Encode s) := by
  unfold writeUtf8
  rw [writeLong_ok _ ⟨by omega, hs⟩]

theorem writeUtf8_ok_inv (s : String) (bs : List Nat) (h : writeUtf8 s = .ok bs) :
    ((utf8Encode s).length : Int) < 9223372036854775808 ∧
      bs = longBytes ((utf8Encode s).length : Int) ++ utf8Encode s := by
  unfold writeUtf8 at h
  cases hw : writeLong ((utf8Encode s).length : Int) with
  | error e =>
    rw [hw] at h
    exact absurd h (by simp)
  | ok lb =>
    rw [hw] at h
    obtain ⟨hr, hlb⟩ := writeLong_ok_inv _ _ hw
    have h2 : Except.ok (lb ++ utf8Encode s) = Except.ok bs := h
    have h3 : lb ++ utf8Encode s = bs := (Except.ok.injEq _ _).mp h2
    exact ⟨hr.2, by rw [← h3, hlb]⟩

theorem writeDatum_str (s : String) (hs : ((utf8Encode s).length : Int) < 9223372036854775808) :
    writeDatum .string (.str s) =
      .ok (longBytes ((utf8Encode s).length : Int) ++ utf8Encode s) := by
  show writeUtf8 s = _
  exact writeUtf8_ok s hs

theorem writeDatum_int (n : Int) (h : -9223372036854775808 ≤ n ∧ n < 9223372036854775808) :
    writeDatum .long (.int n) = .ok (longBytes n) := by
  show writeLong n = _
  exact writeLong_ok n h

theorem writeDatum_str_ok_inv (s : String) (bs : List Nat)
    (h : writeDatum .string (.str s) = .ok bs) :
    ((utf8Encode s).length : Int) < 9223372036854775808 ∧
      bs = longBytes ((utf8Encode s).length : Int) ++ utf8Encode s := by
  have h1 : writeUtf8 s = .ok bs := h
  exact writeUtf8_ok_inv s bs h1

theorem writeDatum_int_ok_inv (n : Int) (bs : List Nat)
    (h : writeDatum .long (.int n) = .ok bs) :
    (-9223372036854775808 ≤ n ∧ n < 9223372036854775808) ∧ bs = longBytes n := by
  have h1 : writeLong n = .ok bs := h
  exact writeLong_ok_inv n bs h1

theorem readDatum_long (n : Int) (rest : List Nat) :
    readDatum .long (longBytes n ++ rest) = .ok (.int n, rest) := by
  rw [readDatum, readLong_longBytes]

theorem readDatum_string (s : String) (rest : List Nat) :
    readDatum .string (longBytes ((utf8Encode s).length : Int) ++ (utf8Encode s ++ rest)) =
      .ok (.str s, rest) := by
  rw [readDatum, readLong_longBytes]
  show (match pyRead ((utf8Encode s).length : Int) (utf8Encode s ++ rest) with
    | (bs, r2) =>
      match utf8Decode bs with
      | Except.ok s2 => Except.ok (PyVal.str s2, r2)
      | Except.error e => Except.error e) = _
  unfold pyRead
  rw [if_neg (by omega)]
  simp only [Int.toNat_ofNat, List.take_left, List.drop_left]
  rw [utf8Decode_encode]

end GlueSchemaRegistry
namespace GlueSchemaRegistry

set_option maxRecDepth 10000 in
theorem writeRecord_salesforce_chain (a b c : String) (n : Int) :
    writeRecord salesforceFields
      (.cons "eventId" (.str a)
        (.cons "eventName" (.str b)
          (.cons "timestamp" (.int n) (.cons "eventDetails" (.str c) .nil)))) =
    (match writeDatum .string (.str a) with
     | Except.error e => Except.error e
     | Except.ok b1 =>
       match (match writeDatum .string (.str b) with
              | Except.error e => Except.error e
              | Except.ok b2 =>
                match (match writeDatum .long (.int n) with
                       | Except.error e => Except.error e
                       | Except.ok b3 =>
                         match (match writeDatum .string (.str c) with
                                | Except.error e => Except.error e
                                | Except.ok b4 => Except.ok (b4 ++ [])) with
                         | Except.error e => Except.error e
                         | Except.ok rest => Except.ok (b3 ++ rest)) with
                | Except.error e => Except.error e
                | Except.ok rest => Except.ok (b2 ++ rest)) with
       | Except.error e => Except.error e
       | Except.ok rest => Except.ok (b1 ++ rest) : Except PyErr (List Nat)) := rfl

theorem writeRecord_salesforce (a b c : String) (n : Int)
    (ha : ((utf8Encode a).length : Int) < 9223372036854775808)
    (hb : ((utf8Encode b).length : Int) < 9223372036854775808)
    (hc : ((utf8Encode c).length : Int) < 9223372036854775808)
    (hn : -9223372036854775808 ≤ n ∧ n < 9223372036854775808) :
    writeRecord salesforceFields
      (.cons "eventId" (.str a)
        (.cons "eventName" (.str b)
          (.cons "timestamp" (.int n) (.cons "eventDetails" (.str c) .nil)))) =
    .ok ((longBytes ((utf8Encode a).length : Int) ++ utf8Encode a) ++
      ((longBytes ((utf8Encode b).length : Int) ++ utf8Encode b) ++
        (longBytes n ++ ((longBytes ((utf8Encode c).length : Int) ++ utf8Encode c) ++ [])))) := by
  rw [writeRecord_salesforce_chain]
  rw [writeDatum_str a ha, writeDatum_str b hb, writeDatum_str c hc, writeDatum_int n hn]

theorem writeRecord_salesforce_ok_inv (a b c : String) (n : Int) (bs : List Nat)
    (h : writeRecord salesforceFields
      (.cons "eventId" (.str a)
        (.cons "eventName" (.str b)
          (.cons "timestamp" (.int n) (.cons "eventDetails" (.str c) .nil)))) = .ok bs) :
    (-9223372036854775808 ≤ n ∧ n < 9223372036854775808) ∧
    bs = (longBytes ((utf8Encode a).length : Int) ++ utf8Encode a) ++
      ((longBytes ((utf8Encode b).length : Int) ++ utf8Encode b) ++
        (longBytes n ++ ((longBytes ((utf8Encode c).length : Int) ++ utf8Encode c) ++ []))) := by
  rw [writeRecord_salesforce_chain] at h
  cases h1 : writeDatum AvroType.string (PyVal.str a) with
  | error e =>
    rw [h1] at h
    exact Except.noConfusion (show Except.error e = Except.ok bs from h)
  | ok b1 =>
    rw [h1] at h
    cases h2 : writeDatum AvroType.string (PyVal.str b) with
    | error e =>
      rw [h2] at h
      exact Except.noConfusion (show Except.error e = Except.ok bs from h)
    | ok b2 =>
      rw [h2] at h
      cases h3 : writeDatum AvroType.long (PyVal.int n) with
      | error e =>
        rw [h3] at h
        exact Except.noConfusion (show Except.error e = Except.ok bs from h)
      | ok b3 =>
        rw [h3] at h
        cases h4 : writeDatum AvroType.string (PyVal.str c) with
        | error e =>
          rw [h4] at h
          exact Except.noConfusion (show Except.error e = Except.ok bs from h)
        | ok b4 =>
          rw [h4] at h
          have h5 : Except.ok (b1 ++ (b2 ++ (b3 ++ (b4 ++ [])))) = Except.ok bs := h
          obtain ⟨ha1, ha2⟩ := writeDatum_str_ok_inv a b1 h1
          obtain ⟨hb1, hb2⟩ := writeDatum_str_ok_inv b b2 h2
          obtain ⟨hn1, hn2⟩ := writeDatum_int_ok_inv n b3 h3
          obtain ⟨hc1, hc2⟩ := writeDatum_str_ok_inv c b4 h4
          refine ⟨hn1, ?_⟩
          rw [← (Except.ok.injEq _ _).mp h5, ha2, hb2, hn2, hc2]

theorem readRecord_salesforce (a b c : String) (n : Int) :
    readRecord salesforceFields
      ((longBytes ((utf8Encode a).length : Int) ++ utf8Encode a) ++
        ((longBytes ((utf8Encode b).length : Int) ++ utf8Encode b) ++
          (longBytes n ++ ((longBytes ((utf8Encode c).length : Int) ++ utf8Encode c) ++ [])))) =
    .ok (.cons "eventId" (.str a)
      (.cons "eventName" (.str b)
        (.cons "timestamp" (.int n) (.cons "eventDetails" (.str c) .nil))), []) := by
  rw [show salesforceFields = ("eventId", AvroType.string) :: [("eventName", AvroType.string),
    ("timestamp", AvroType.long), ("eventDetails", AvroType.string)] from rfl]
  rw [readRecord, List.append_assoc, readDatum_string]
  show (match readRecord [("eventName", AvroType.string), ("timestamp", AvroType.long),
      ("eventDetails", AvroType.string)]
      ((longBytes ((utf8Encode b).length : Int) ++ utf8Encode b) ++
        (longBytes n ++ ((longBytes ((utf8Encode c).length : Int) ++ utf8Encode c) ++ []))) with
    | Except.error e => Except.error e
    | Except.ok (d, r2) => Except.ok (PyDict.cons "eventId" (PyVal.str a) d, r2)) = _
  rw [readRecord, List.append_assoc, readDatum_string]
  show (match
      (match readRecord [("timestamp", AvroType.long), ("eventDetails", AvroType.string)]
        (longBytes n ++ ((longBytes ((utf8Encode c).length : Int) ++ utf8Encode c) ++ [])) with
      | Except.error e => Except.error e
      | Except.ok (d, r2) => Except.ok (PyDict.cons "eventName" (PyVal.str b) d, r2)) with
    | Except.error e => Except.error e
    | Except.ok (d, r2) => Except.ok (PyDict.cons "eventId" (PyVal.str a) d, r2)) = _
  rw [readRecord, readDatum_long]
  show (match
      (match
        (match readRecord [("eventDetails", AvroType.string)]
          ((longBytes ((utf8Encode c).length : Int) ++ utf8Encode c) ++ []) with
        | Except.error e => Except.error e
        | Except.ok (d, r2) => Except.ok (PyDict.cons "timestamp" (PyVal.int n) d, r2)) with
      | Except.error e => Except.error e
      | Except.ok (d, r2) => Except.ok (PyDict.cons "eventName" (PyVal.str b) d, r2)) with
    | Except.error e => Except.error e
    | Except.ok (d, r2) => Except.ok (PyDict.cons "eventId" (PyVal.str a) d, r2)) = _
  rw [readRecord, List.append_assoc, readDatum_string]
  rfl

end GlueSchemaRegistry
namespace GlueSchemaRegistry

theorem avro_serialize_unfold (client : GlueSchemaRegistryClient) (name : String)
    (resp : GetSchemaResponse) (vresp : GetSchemaVersionResponse) (sd : PyVal)
    (hg : client.get_schema name = .ok resp)
    (hv : client.get_schema_version name resp.LatestSchemaVersion = .ok vresp)
    (hl : jsonLoads vresp.SchemaDefinition = .ok sd)
    (hp : parse_schema sd = .ok salesforceFields)
    (a b c : String) (n : Int) :
    AvroSerializer.serialize client name ⟨.str a, .str b, .int n, .str c⟩ =
      Except.mapError
        (fun e => .schemaRegistryException ("Failed to serialize SalesforceAudit: " ++ e.text))
        (writeRecord salesforceFields
          (.cons "eventId" (.str a)
            (.cons "eventName" (.str b)
              (.cons "timestamp" (.int n) (.cons "eventDetails" (.str c) .nil))))) := by
  unfold AvroSerializer.serialize
  rw [hg]
  simp only [bind, Except.bind, hv, hl, hp]
  rfl

theorem avro_serialize_eq (client : GlueSchemaRegistryClient) (name : String)
    (resp : GetSchemaResponse) (vresp : GetSchemaVersionResponse) (sd : PyVal)
    (hg : client.get_schema name = .ok resp)
    (hv : client.get_schema_version name resp.LatestSchemaVersion = .ok vresp)
    (hl : jsonLoads vresp.SchemaDefinition = .ok sd)
    (hp : parse_schema sd = .ok salesforceFields)
    (a b c : String) (n : Int)
    (ha : ((utf8Encode a).length : Int) < 9223372036854775808)
    (hb : ((utf8Encode b).length : Int) < 9223372036854775808)
    (hc : ((utf8Encode c).length : Int) < 9223372036854775808)
    (hn : -9223372036854775808 ≤ n ∧ n < 9223372036854775808) :
    AvroSerializer.serialize client name ⟨.str a, .str b, .int n, .str c⟩ =
      .ok ((longBytes ((utf8Encode a).length : Int) ++ utf8Encode a) ++
        ((longBytes ((utf8Encode b).length : Int) ++ utf8Encode b) ++
          (longBytes n ++ ((longBytes ((utf8Encode c).length : Int) ++ utf8Encode c) ++ [])))) := by
  rw [avro_serialize_unfold client name resp vresp sd hg hv hl hp a b c n]
  rw [writeRecord_salesforce a b c n ha hb hc hn]
  rfl

end GlueSchemaRegistry
namespace GlueSchemaRegistry

theorem avro_deserialize_of_write (client : GlueSchemaRegistryClient) (name : String)
    (resp : GetSchemaResponse) (vresp : GetSchemaVersionResponse) (sd : PyVal)
    (hg : client.get_schema name = .ok resp)
    (hv : client.get_schema_version name resp.LatestSchemaVersion = .ok vresp)
    (hl : jsonLoads vresp.SchemaDefinition = .ok sd)
    (hp : parse_schema sd = .ok salesforceFields)
    (a b c : String) (n : Int) (hn : 0 ≤ n) :
    AvroSerializer.deserialize client name
      ((longBytes ((utf8Encode a).length : Int) ++ utf8Encode a) ++
        ((longBytes ((utf8Encode b).length : Int) ++ utf8Encode b) ++
          (longBytes n ++ ((longBytes ((utf8Encode c).length : Int) ++ utf8Encode c) ++ [])))) =
      .ok ⟨.str a, .str b, .int n, .str c⟩ := by
  unfold AvroSerializer.deserialize
  rw [hg]
  simp only [bind, Except.bind, hv, hl, hp]
  unfold schemalessReader
  rw [readRecord_salesforce]
  show Except.mapError _ (SalesforceAudit.make (.str a) (.str b) (.int n) (.str c)) = _
  unfold SalesforceAudit.make
  rw [if_neg (by simp [PyVal.isIntInstance]), if_neg (by simp [PyVal.toIntVal]; omega)]
  rfl

end GlueSchemaRegistry
namespace GlueSchemaRegistry

theorem hexDigitVal_hexDigitChar : ∀ d < 16, hexDigitVal (hexDigitChar d) = some d := by decide

end GlueSchemaRegistry
namespace GlueSchemaRegistry

theorem pjs_quote (acc rest) : parseJString acc ('"' :: rest) = .ok (String.mk acc.reverse, rest) := by
  rw [parseJString.eq_def]
  simp +decide

theorem pjs_esc_quote (acc rest) :
    parseJString acc ('\\' :: '"' :: rest) = parseJString ('"' :: acc) rest := by
  rw [parseJString.eq_def]
  simp +decide

theorem pjs_esc_back (acc rest) :
    parseJString acc ('\\' :: '\\' :: rest) = parseJString ('\\' :: acc) rest := by
  rw [parseJString.eq_def]
  simp +decide

theorem pjs_u00 (acc rest) (hi lo : Nat) (hhi : hi < 16) (hlo : lo < 16) :
    parseJString acc ('\\' :: 'u' :: '0' :: '0' :: hexDigitChar hi :: hexDigitChar lo :: rest) =
      parseJString (Char.ofNat (hi * 16 + lo) :: acc) rest := by
  rw [parseJString.eq_def]
  simp +decide only []
  rw [show hex4 '0' '0' (hexDigitChar hi) (hexDigitChar lo) = some (hi * 16 + lo) from by
    unfold hex4
    rw [show hexDigitVal '0' = some 0 from rfl, hexDigitVal_hexDigitChar hi hhi,
      hexDigitVal_hexDigitChar lo hlo]
    show some (0 * 4096 + 0 * 256 + hi * 16 + lo) = _
    norm_num]
  show (if hi * 16 + lo < 55296 ∨ 57344 ≤ hi * 16 + lo then _ else _) = _
  rw [if_pos (Or.inl (by omega))]

theorem pjs_plain (acc rest) (c : Char) (hq : ¬ c = '"') (hb : ¬ c = '\\')
    (hctrl : ¬ c.toNat < 0x20) :
    parseJString acc (c :: rest) = parseJString (c :: acc) rest := by
  rw [parseJString.eq_def]
  simp only [if_neg hq, if_neg hb, if_neg hctrl]

end GlueSchemaRegistry
namespace GlueSchemaRegistry

theorem parseJString_escape (cs : List Char) : ∀ (acc rest : List Char),
    parseJString acc (cs.flatMap escapeChar ++ ('"' :: rest)) =
      .ok (String.mk (acc.reverse ++ cs), rest) := by
  induction cs with
  | nil =>
    intro acc rest
    simp only [List.flatMap_nil, List.nil_append]
    rw [pjs_quote]
    simp
  | cons c cs ih =>
    intro acc rest
    rw [List.flatMap_cons, List.append_assoc]
    by_cases hq : c = '"'
    · subst hq
      rw [show escapeChar '"' = ['\\', '"'] from rfl]
      rw [show (['\\', '"'] : List Char) ++ (cs.flatMap escapeChar ++ ('"' :: rest)) =
        '\\' :: '"' :: (cs.flatMap escapeChar ++ ('"' :: rest)) from rfl]
      rw [pjs_esc_quote, ih]
      simp
    · by_cases hb : c = '\\'
      · subst hb
        rw [show escapeChar '\\' = ['\\', '\\'] from rfl]
        rw [show (['\\', '\\'] : List Char) ++ (cs.flatMap escapeChar ++ ('"' :: rest)) =
          '\\' :: '\\' :: (cs.flatMap escapeChar ++ ('"' :: rest)) from rfl]
        rw [pjs_esc_back, ih]
        simp
      · by_cases hctrl : c.toNat < 0x20
        · rw [show escapeChar c = ['\\', 'u', '0', '0', hexDigitChar (c.toNat / 16),
            hexDigitChar (c.toNat % 16)] from by
              unfold escapeChar
              rw [if_neg hq, if_neg hb, if_pos hctrl]]
          rw [show (['\\', 'u', '0', '0', hexDigitChar (c.toNat / 16),
              hexDigitChar (c.toNat % 16)] : List Char) ++ (cs.flatMap escapeChar ++ ('"' :: rest)) =
            '\\' :: 'u' :: '0' :: '0' :: hexDigitChar (c.toNat / 16) ::
              hexDigitChar (c.toNat % 16) :: (cs.flatMap escapeChar ++ ('"' :: rest)) from rfl]
          rw [pjs_u00 _ _ _ _ (by omega) (by omega)]
          rw [show c.toNat / 16 * 16 + c.toNat % 16 = c.toNat by omega, Char.ofNat_toNat, ih]
          simp
        · rw [show escapeChar c = [c] from by
            unfold escapeChar
            rw [if_neg hq, if_neg hb, if_neg hctrl]]
          rw [show ([c] : List Char) ++ (cs.flatMap escapeChar ++ ('"' :: rest)) =
            c :: (cs.flatMap escapeChar ++ ('"' :: rest)) from rfl]
          rw [pjs_plain _ _ _ hq hb hctrl, ih]
          simp

theorem parse_encodeJString (s : String) (rest : List Char) :
    parseJString [] ((encodeJString s).tail ++ rest) = .ok (s, rest) := by
  unfold encodeJString
  rw [show ('"' :: (s.data.flatMap escapeChar ++ ['"'])).tail =
    s.data.flatMap escapeChar ++ ['"'] from rfl]
  rw [List.append_assoc]
  rw [show (['"'] : List Char) ++ rest = '"' :: rest from rfl]
  rw [parseJString_escape]
  simp

end GlueSchemaRegistry
namespace GlueSchemaRegistry

theorem natToRevDigitsAux_zero : ∀ fuel, natToRevDigitsAux fuel 0 = [] := by
  intro fuel
  cases fuel with
  | zero => rfl
  | succ f => rw [natToRevDigitsAux, if_pos rfl]

theorem digitVal_decDigitChar (d : Nat) (h : d < 10) : digitVal (decDigitChar d) = d := by
  unfold digitVal decDigitChar
  rw [char_toNat_ofNat_of_valid (48 + d) (Or.inl (by omega))]
  omega

theorem decimalVal_append (ds : List Char) (c : Char) :
    decimalVal (ds ++ [c]) = decimalVal ds * 10 + digitVal c := by
  unfold decimalVal
  rw [List.foldl_append]
  rfl

theorem decimalVal_natToRevDigitsAux (fuel : Nat) : ∀ n ≤ fuel,
    decimalVal ((natToRevDigitsAux fuel n).reverse.map decDigitChar) = n := by
  induction fuel with
  | zero =>
    intro n h
    have : n = 0 := by omega
    subst this
    rfl
  | succ f ih =>
    intro n h
    by_cases h0 : n = 0
    · subst h0
      rfl
    · rw [natToRevDigitsAux, if_neg h0]
      rw [List.reverse_cons, List.map_append]
      rw [show List.map decDigitChar [n % 10] = [decDigitChar (n % 10)] from rfl]
      rw [decimalVal_append, ih (n / 10) (by omega), digitVal_decDigitChar (n % 10) (by omega)]
      omega

theorem natToRevDigitsAux_digits (fuel : Nat) : ∀ n, ∀ d ∈ natToRevDigitsAux fuel n, d < 10 := by
  induction fuel with
  | zero => intro n d hd; simp [natToRevDigitsAux] at hd
  | succ f ih =>
    intro n d hd
    rw [natToRevDigitsAux] at hd
    by_cases h0 : n = 0
    · rw [if_pos h0] at hd; simp at hd
    · rw [if_neg h0] at hd
      rcases List.mem_cons.mp hd with h | h
      · omega
      · exact ih _ _ h

theorem natToRevDigitsAux_last (fuel : Nat) : ∀ n, 0 < n → n ≤ fuel →
    ∃ d ds, natToRevDigitsAux fuel n = ds ++ [d] ∧ 0 < d ∧ d < 10 := by
  induction fuel with
  | zero => intro n h h2; omega
  | succ f ih =>
    intro n h h2
    rw [natToRevDigitsAux, if_neg (by omega)]
    by_cases h10 : n / 10 = 0
    · refine ⟨n % 10, [], ?_, by omega, by omega⟩
      rw [h10, natToRevDigitsAux_zero]
      rfl
    · obtain ⟨d, ds, heq, hd0, hd10⟩ := ih (n / 10) (by omega) (by omega)
      exact ⟨d, n % 10 :: ds, by rw [heq]; rfl, hd0, hd10⟩

theorem decimalVal_natToChars (n : Nat) : decimalVal (natToChars n) = n := by
  by_cases h0 : n = 0
  · subst h0; rfl
  · unfold natToChars
    rw [if_neg h0]
    exact decimalVal_natToRevDigitsAux n n le_rfl

theorem decDigitChar_isDigit : ∀ d < 10, (decDigitChar d).isDigit = true := by decide

theorem natToChars_digits (n : Nat) : ∀ c ∈ natToChars n, c.isDigit = true := by
  intro c hc
  unfold natToChars at hc
  by_cases h0 : n = 0
  · rw [if_pos h0] at hc
    simp at hc
    subst hc
    decide
  · rw [if_neg h0] at hc
    rw [List.mem_map] at hc
    obtain ⟨d, hd, rfl⟩ := hc
    rw [List.mem_reverse] at hd
    exact decDigitChar_isDigit d (natToRevDigitsAux_digits n n d hd)

end GlueSchemaRegistry
namespace GlueSchemaRegistry

theorem char_isDigit_toNat (c : Char) (h : c.isDigit = true) : 48 ≤ c.toNat ∧ c.toNat ≤ 57 := by
  unfold Char.isDigit at h
  simp at h
  exact h

theorem isNumChar_of_isDigit (c : Char) (h : c.isDigit = true) : isNumChar c = true := by
  unfold isNumChar
  rw [h]
  rfl

theorem takeWhile_append_not (p : Char → Bool) :
    ∀ (l1 : List Char) (c : Char) (l2 : List Char),
    (∀ x ∈ l1, p x = true) → p c = false →
    (l1 ++ c :: l2).takeWhile p = l1 ∧ (l1 ++ c :: l2).dropWhile p = c :: l2 := by
  intro l1
  induction l1 with
  | nil =>
    intro c l2 _ hc
    constructor
    · simp [List.takeWhile_cons, hc]
    · simp [List.dropWhile_cons, hc]
  | cons x xs ih =>
    intro c l2 hall hc
    have hx : p x = true := hall x (by simp)
    obtain ⟨ht, hd⟩ := ih c l2 (fun y hy => hall y (by simp [hy])) hc
    constructor
    · simp only [List.cons_append, List.takeWhile_cons, hx, if_true, ht]
    · simp only [List.cons_append, List.dropWhile_cons, hx, if_true, hd]

theorem dropWhile_all (p : Char → Bool) (l : List Char) (h : ∀ x ∈ l, p x = true) :
    l.dropWhile p = [] := by
  rw [List.dropWhile_eq_nil_iff]
  intro x hx
  exact h x hx

theorem natToChars_shape (n : Nat) (h0 : 0 < n) :
    ∃ d ds, natToChars n = decDigitChar d :: ds ∧ 0 < d ∧ d < 10 ∧
      (∀ c ∈ ds, c.isDigit = true) := by
  obtain ⟨d, ds0, heq, hd0, hd10⟩ := natToRevDigitsAux_last n n h0 le_rfl
  refine ⟨d, ds0.reverse.map decDigitChar, ?_, hd0, hd10, ?_⟩
  · unfold natToChars natToRevDigits
    rw [if_neg (by omega), heq]
    simp
  · intro c hc
    rw [List.mem_map] at hc
    obtain ⟨e, he, rfl⟩ := hc
    rw [List.mem_reverse] at he
    have : e < 10 := natToRevDigitsAux_digits n n e (by rw [heq]; simp [he])
    exact decDigitChar_isDigit e this

theorem decDigitChar_ne_zero_char (d : Nat) (h0 : 0 < d) (h10 : d < 10) :
    ¬ decDigitChar d = '0' := by
  intro h
  have := char_toNat_ofNat_of_valid (48 + d) (Or.inl (by omega))
  rw [show Char.ofNat (48 + d) = decDigitChar d from rfl, h] at this
  simp at this
  omega

theorem decDigitChar_ne_minus (d : Nat) (h10 : d < 10) : ¬ decDigitChar d = '-' := by
  intro h
  have := char_toNat_ofNat_of_valid (48 + d) (Or.inl (by omega))
  rw [show Char.ofNat (48 + d) = decDigitChar d from rfl, h] at this
  simp at this
  omega

theorem chompUInt_natToChars (n : Nat) : chompUInt (natToChars n) = some [] := by
  by_cases h0 : n = 0
  · subst h0
    rfl
  · obtain ⟨d, ds, heq, hd0, hd10, hds⟩ := natToChars_shape n (by omega)
    rw [heq, chompUInt]
    rw [if_neg (decDigitChar_ne_zero_char d hd0 hd10), if_pos (decDigitChar_isDigit d hd10)]
    rw [dropWhile_all _ ds hds]

theorem natToChars_isEmpty (n : Nat) : (natToChars n).isEmpty = false := by
  by_cases h0 : n = 0
  · subst h0; rfl
  · obtain ⟨d, ds, heq, _, _, _⟩ := natToChars_shape n (by omega)
    rw [heq]
    rfl

theorem natToChars_head_ne_minus (n : Nat) : (natToChars n).head? ≠ some '-' := by
  by_cases h0 : n = 0
  · subst h0; decide
  · obtain ⟨d, ds, heq, hd0, hd10, _⟩ := natToChars_shape n (by omega)
    rw [heq]
    intro h
    rw [List.head?_cons, Option.some.injEq] at h
    exact decDigitChar_ne_minus d hd10 h

theorem isJsonNumberToken_natToChars (n : Nat) : isJsonNumberToken (natToChars n) = true := by
  unfold isJsonNumberToken
  rw [if_neg (natToChars_head_ne_minus n)]
  show (match chompUInt (natToChars n) with
    | some r =>
      match chompFrac r with
      | some r2 =>
        match chompExp r2 with
        | some [] => true
        | _ => false
      | Option.none => false
    | Option.none => false) = true
  rw [chompUInt_natToChars n]
  rfl

theorem isJsonNumberToken_negNatToChars (n : Nat) :
    isJsonNumberToken ('-' :: natToChars n) = true := by
  unfold isJsonNumberToken
  rw [if_pos (by rw [List.head?_cons])]
  rw [List.tail_cons]
  show (match chompUInt (natToChars n) with
    | some r =>
      match chompFrac r with
      | some r2 =>
        match chompExp r2 with
        | some [] => true
        | _ => false
      | Option.none => false
    | Option.none => false) = true
  rw [chompUInt_natToChars n]
  rfl

theorem digit_not_fchar (c : Char) (h : c.isDigit = true) :
    decide (c = '.' ∨ c = 'e' ∨ c = 'E') = false :=
  decide_eq_false (by rintro (rfl | rfl | rfl) <;> exact absurd h (by decide))

theorem natToChars_no_fchar (n : Nat) :
    (natToChars n).any (fun c => decide (c = '.' ∨ c = 'e' ∨ c = 'E')) = false := by
  rw [List.any_eq_false]
  intro c hc
  rw [digit_not_fchar c (natToChars_digits n c hc)]
  simp

theorem parseNumber_natToChars (n : Nat) (c : Char) (l2 : List Char) (hc : isNumChar c = false) :
    parseNumber (natToChars n ++ c :: l2) = .ok (.int (n : Int), c :: l2) := by
  obtain ⟨ht, hd⟩ := takeWhile_append_not isNumChar (natToChars n) c l2
    (fun x hx => isNumChar_of_isDigit x (natToChars_digits n x hx)) hc
  unfold parseNumber
  rw [ht, hd]
  rw [if_neg (by rw [natToChars_isEmpty]; exact Bool.false_ne_true)]
  rw [if_neg (by rw [isJsonNumberToken_natToChars]; simp)]
  rw [if_neg (by rw [natToChars_no_fchar]; exact Bool.false_ne_true)]
  rw [if_neg (natToChars_head_ne_minus n)]
  rw [decimalVal_natToChars]

theorem parseNumber_negNatToChars (n : Nat) (c : Char) (l2 : List Char)
    (hc : isNumChar c = false) :
    parseNumber (('-' :: natToChars n) ++ c :: l2) = .ok (.int (-(n : Int)), c :: l2) := by
  obtain ⟨ht, hd⟩ := takeWhile_append_not isNumChar ('-' :: natToChars n) c l2
    (by
      intro x hx
      rcases List.mem_cons.mp hx with rfl | hx2
      · rfl
      · exact isNumChar_of_isDigit x (natToChars_digits n x hx2)) hc
  unfold parseNumber
  rw [ht, hd]
  rw [if_neg (by simp)]
  rw [if_neg (by rw [isJsonNumberToken_negNatToChars]; simp)]
  rw [if_neg (by
    rw [show (('-' :: natToChars n).any fun c => decide (c = '.' ∨ c = 'e' ∨ c = 'E')) =
      ((natToChars n).any fun c => decide (c = '.' ∨ c = 'e' ∨ c = 'E')) from by
        rw [List.any_cons]
        simp]
    rw [natToChars_no_fchar]
    exact Bool.false_ne_true)]
  rw [if_pos (by rw [List.head?_cons])]
  rw [List.tail_cons, decimalVal_natToChars]

theorem parseNumber_intToChars (m : Int) (c : Char) (l2 : List Char) (hc : isNumChar c = false) :
    parseNumber (intToChars m ++ c :: l2) = .ok (.int m, c :: l2) := by
  unfold intToChars
  by_cases hm : m < 0
  · rw [if_pos hm, parseNumber_negNatToChars _ _ _ hc]
    have h2 : -(((-m).toNat : Int)) = m := by omega
    rw [h2]
  · rw [if_neg hm, parseNumber_natToChars _ _ _ hc]
    have h2 : ((m.toNat : Int)) = m := by omega
    rw [h2]

theorem parse_encodeJString_append (s : String) (X : List Char) :
    parseJString [] ((s.data.flatMap escapeChar ++ ['"']) ++ X) = .ok (s, X) := by
  rw [List.append_assoc]
  rw [show (['"'] : List Char) ++ X = '"' :: X from rfl]
  rw [parseJString_escape]
  simp

theorem parseVal_quote (fuel : Nat) (r : List Char) :
    parseVal (fuel + 1) ('"' :: r) =
      match parseJString [] r with
      | .ok (s, r2) => .ok (.str s, r2)
      | .error e => .error e := rfl

theorem parseVal_space (fuel : Nat) (xs : List Char) :
    parseVal (fuel + 1) (' ' :: xs) = parseVal (fuel + 1) xs := rfl

set_option maxHeartbeats 3200000 in
theorem parseVal_unfold (fuel : Nat) (l : List Char) :
    parseVal (fuel + 1) l =
      match skipWs l with
      | '"' :: r =>
        match parseJString [] r with
        | Except.ok (s, r2) => Except.ok (PyVal.str s, r2)
        | Except.error e => Except.error e
      | '{' :: r =>
        match skipWs r with
        | '}' :: r2 => Except.ok (PyVal.dict PyDict.nil, r2)
        | r2 =>
          match parseMembers fuel r2 with
          | Except.ok (d, r3) => Except.ok (PyVal.dict d, r3)
          | Except.error e => Except.error e
      | '[' :: r =>
        match skipWs r with
        | ']' :: r2 => Except.ok (PyVal.list PyList.nil, r2)
        | r2 =>
          match parseItems fuel r2 with
          | Except.ok (xs, r3) => Except.ok (PyVal.list xs, r3)
          | Except.error e => Except.error e
      | 't' :: 'r' :: 'u' :: 'e' :: r => Except.ok (PyVal.bool true, r)
      | 'f' :: 'a' :: 'l' :: 's' :: 'e' :: r => Except.ok (PyVal.bool false, r)
      | 'n' :: 'u' :: 'l' :: 'l' :: r => Except.ok (PyVal.none, r)
      | l2 => parseNumber l2 := rfl

set_option maxHeartbeats 3200000 in
theorem parseVal_other (fuel : Nat) (x : Char) (xs : List Char) (hws : isJsonWs x = false)
    (h1 : x ≠ '"') (h2 : x ≠ '\x7b') (h3 : x ≠ '[') (h4 : x ≠ 't') (h5 : x ≠ 'f')
    (h6 : x ≠ 'n') :
    parseVal (fuel + 1) (x :: xs) = parseNumber (x :: xs) := by
  rw [parseVal_unfold]
  rw [show skipWs (x :: xs) = x :: xs from by
    unfold skipWs
    rw [List.dropWhile_cons, hws]
    simp]
  split
  · rename_i heq
    exact absurd ((List.cons.injEq _ _ _ _).mp heq.symm).1.symm h1
  · rename_i heq
    exact absurd ((List.cons.injEq _ _ _ _).mp heq.symm).1.symm h2
  · rename_i heq
    exact absurd ((List.cons.injEq _ _ _ _).mp heq.symm).1.symm h3
  · rename_i heq
    exact absurd ((List.cons.injEq _ _ _ _).mp heq.symm).1.symm h4
  · rename_i heq
    exact absurd ((List.cons.injEq _ _ _ _).mp heq.symm).1.symm h5
  · rename_i heq
    exact absurd ((List.cons.injEq _ _ _ _).mp heq.symm).1.symm h6
  · rfl
theorem digit_char_facts (x : Char) (h : x.isDigit = true) :
    isJsonWs x = false ∧ x ≠ '"' ∧ x ≠ '\x7b' ∧ x ≠ '[' ∧ x ≠ 't' ∧ x ≠ 'f' ∧ x ≠ 'n' := by
  refine ⟨?_, ?_, ?_, ?_, ?_, ?_, ?_⟩
  · exact decide_eq_false (by rintro (rfl | rfl | rfl | rfl) <;> exact absurd h (by decide))
  all_goals intro hx; subst hx; exact absurd h (by decide)

theorem intToChars_shape (n : Int) :
    ∃ x xs, intToChars n = x :: xs ∧ (x = '-' ∨ x.isDigit = true) := by
  unfold intToChars
  by_cases hm : n < 0
  · rw [if_pos hm]
    exact ⟨'-', _, rfl, Or.inl rfl⟩
  · rw [if_neg hm]
    by_cases h0 : n.toNat = 0
    · rw [h0]
      exact ⟨'0', [], rfl, Or.inr (by decide)⟩
    · obtain ⟨d, ds, heq, hd0, hd10, _⟩ := natToChars_shape n.toNat (by omega)
      exact ⟨_, _, heq, Or.inr (decDigitChar_isDigit d hd10)⟩

theorem parseVal_dumpsScalar (fuel : Nat) (v : PyVal) (hv : PyValIsScalar v) (c : Char)
    (l2 : List Char) (hc : isNumChar c = false) :
    parseVal (fuel + 1) (jsonDumpsVal v ++ c :: l2) = .ok (v, c :: l2) := by
  rcases hv with ⟨s, rfl⟩ | ⟨n, rfl⟩
  · rw [show jsonDumpsVal (.str s) = '"' :: (s.data.flatMap escapeChar ++ ['"']) from rfl]
    rw [show ('"' :: (s.data.flatMap escapeChar ++ ['"'])) ++ c :: l2 =
      '"' :: ((s.data.flatMap escapeChar ++ ['"']) ++ c :: l2) from rfl]
    rw [parseVal_quote, parse_encodeJString_append]
  · rw [show jsonDumpsVal (.int n) = intToChars n from rfl]
    obtain ⟨x, xs, heq, hx⟩ := intToChars_shape n
    have hfacts : isJsonWs x = false ∧ x ≠ '"' ∧ x ≠ '\x7b' ∧ x ≠ '[' ∧ x ≠ 't' ∧ x ≠ 'f' ∧
        x ≠ 'n' := by
      rcases hx with rfl | hd
      · exact ⟨by decide, by decide, by decide, by decide, by decide, by decide, by decide⟩
      · exact digit_char_facts x hd
    obtain ⟨hws, h1, h2, h3, h4, h5, h6⟩ := hfacts
    rw [heq]
    rw [show (x :: xs) ++ c :: l2 = x :: (xs ++ c :: l2) from rfl]
    rw [parseVal_other fuel x _ hws h1 h2 h3 h4 h5 h6]
    rw [show x :: (xs ++ c :: l2) = (x :: xs) ++ c :: l2 from rfl, ← heq]
    exact parseNumber_intToChars n c l2 hc
set_option maxHeartbeats 3200000 in
theorem parseMembers_last (fuel : Nat) (k : String) (v : PyVal) (hv : PyValIsScalar v)
    (rest : List Char) :
    parseMembers (fuel + 2)
      ((encodeJString k ++ (':' :: ' ' :: jsonDumpsVal v)) ++ ('}' :: rest)) =
      .ok (.cons k v .nil, rest) := by
  rw [show (encodeJString k ++ (':' :: ' ' :: jsonDumpsVal v)) ++ ('}' :: rest) =
    '"' :: ((k.data.flatMap escapeChar ++ ['"']) ++
      (':' :: ' ' :: (jsonDumpsVal v ++ '}' :: rest))) from by
      simp [encodeJString, List.append_assoc]]
  show (match parseJString [] ((k.data.flatMap escapeChar ++ ['"']) ++
      (':' :: ' ' :: (jsonDumpsVal v ++ '}' :: rest))) with
    | Except.error e => Except.error e
    | Except.ok (k2, r2) =>
      match skipWs r2 with
      | ':' :: r3 =>
        match parseVal (fuel + 1) r3 with
        | Except.error e => Except.error e
        | Except.ok (v2, r4) =>
          match skipWs r4 with
          | ',' :: r5 =>
            match parseMembers (fuel + 1) r5 with
            | Except.ok (d, r6) => Except.ok (PyDict.cons k2 v2 d, r6)
            | Except.error e => Except.error e
          | '}' :: r5 => Except.ok (PyDict.cons k2 v2 PyDict.nil, r5)
          | _ => Except.error (PyErr.libraryError "json.JSONDecodeError: Expecting , delimiter")
      | _ => Except.error (PyErr.libraryError "json.JSONDecodeError: Expecting : delimiter")) = _
  rw [parse_encodeJString_append]
  show (match parseVal (fuel + 1) (jsonDumpsVal v ++ '}' :: rest) with
    | Except.error e => Except.error e
    | Except.ok (v2, r4) =>
      match skipWs r4 with
      | ',' :: r5 =>
        match parseMembers (fuel + 1) r5 with
        | Except.ok (d, r6) => Except.ok (PyDict.cons k v2 d, r6)
        | Except.error e => Except.error e
      | '}' :: r5 => Except.ok (PyDict.cons k v2 PyDict.nil, r5)
      | _ => Except.error (PyErr.libraryError "json.JSONDecodeError: Expecting , delimiter")) = _
  rw [parseVal_dumpsScalar (fuel) v hv '}' rest (by decide)]
  rfl
set_option maxHeartbeats 3200000 in
theorem parseMembers_cons_comma (fuel : Nat) (k : String) (v : PyVal) (hv : PyValIsScalar v)
    (X : List Char) :
    parseMembers (fuel + 2)
      ((encodeJString k ++ (':' :: ' ' :: jsonDumpsVal v)) ++ (',' :: ' ' :: X)) =
      match parseMembers (fuel + 1) X with
      | .ok (d, r6) => .ok (.cons k v d, r6)
      | .error e => .error e := by
  rw [show (encodeJString k ++ (':' :: ' ' :: jsonDumpsVal v)) ++ (',' :: ' ' :: X) =
    '"' :: ((k.data.flatMap escapeChar ++ ['"']) ++
      (':' :: ' ' :: (jsonDumpsVal v ++ ',' :: ' ' :: X))) from by
      simp [encodeJString, List.append_assoc]]
  show (match parseJString [] ((k.data.flatMap escapeChar ++ ['"']) ++
      (':' :: ' ' :: (jsonDumpsVal v ++ ',' :: ' ' :: X))) with
    | Except.error e => Except.error e
    | Except.ok (k2, r2) =>
      match skipWs r2 with
      | ':' :: r3 =>
        match parseVal (fuel + 1) r3 with
        | Except.error e => Except.error e
        | Except.ok (v2, r4) =>
          match skipWs r4 with
          | ',' :: r5 =>
            match parseMembers (fuel + 1) r5 with
            | Except.ok (d, r6) => Except.ok (PyDict.cons k2 v2 d, r6)
            | Except.error e => Except.error e
          | '}' :: r5 => Except.ok (PyDict.cons k2 v2 PyDict.nil, r5)
          | _ => Except.error (PyErr.libraryError "json.JSONDecodeError: Expecting , delimiter")
      | _ => Except.error (PyErr.libraryError "json.JSONDecodeError: Expecting : delimiter")) = _
  rw [parse_encodeJString_append]
  show (match parseVal (fuel + 1) (jsonDumpsVal v ++ ',' :: ' ' :: X) with
    | Except.error e => Except.error e
    | Except.ok (v2, r4) =>
      match skipWs r4 with
      | ',' :: r5 =>
        match parseMembers (fuel + 1) r5 with
        | Except.ok (d, r6) => Except.ok (PyDict.cons k v2 d, r6)
        | Except.error e => Except.error e
      | '}' :: r5 => Except.ok (PyDict.cons k v2 PyDict.nil, r5)
      | _ => Except.error (PyErr.libraryError "json.JSONDecodeError: Expecting , delimiter")) = _
  rw [parseVal_dumpsScalar (fuel) v hv ',' (' ' :: X) (by decide)]
  rfl
theorem parseMembers_toDict (fuel : Nat) (v1 v2 v3 v4 : PyVal)
    (h1 : PyValIsScalar v1) (h2 : PyValIsScalar v2) (h3 : PyValIsScalar v3)
    (h4 : PyValIsScalar v4) (rest : List Char) :
    parseMembers (fuel + 5)
      (jsonDumpsMembers
        (.cons "eventId" v1 (.cons "eventName" v2
          (.cons "timestamp" v3 (.cons "eventDetails" v4 .nil)))) ++ '}' :: rest) =
      .ok (.cons "eventId" v1 (.cons "eventName" v2
        (.cons "timestamp" v3 (.cons "eventDetails" v4 .nil))), rest) := by
  rw [show jsonDumpsMembers
      (.cons "eventId" v1 (.cons "eventName" v2
        (.cons "timestamp" v3 (.cons "eventDetails" v4 .nil)))) ++ '}' :: rest =
    (encodeJString "eventId" ++ (':' :: ' ' :: jsonDumpsVal v1)) ++ (',' :: ' ' ::
      ((encodeJString "eventName" ++ (':' :: ' ' :: jsonDumpsVal v2)) ++ (',' :: ' ' ::
        ((encodeJString "timestamp" ++ (':' :: ' ' :: jsonDumpsVal v3)) ++ (',' :: ' ' ::
          ((encodeJString "eventDetails" ++ (':' :: ' ' :: jsonDumpsVal v4)) ++
            ('}' :: rest))))))) from by
    simp [jsonDumpsMembers, List.append_assoc]]
  rw [show (fuel + 5 : Nat) = (fuel + 3) + 2 from rfl]
  rw [parseMembers_cons_comma (fuel + 3) "eventId" v1 h1]
  rw [show ((fuel + 3) + 1 : Nat) = (fuel + 2) + 2 from rfl]
  rw [parseMembers_cons_comma (fuel + 2) "eventName" v2 h2]
  rw [show ((fuel + 2) + 1 : Nat) = (fuel + 1) + 2 from rfl]
  rw [parseMembers_cons_comma (fuel + 1) "timestamp" v3 h3]
  rw [show ((fuel + 1) + 1 : Nat) = fuel + 2 from rfl]
  rw [parseMembers_last fuel "eventDetails" v4 h4 rest]
set_option maxHeartbeats 3200000 in
theorem jsonLoads_dumps_toDict (v1 v2 v3 v4 : PyVal)
    (h1 : PyValIsScalar v1) (h2 : PyValIsScalar v2) (h3 : PyValIsScalar v3)
    (h4 : PyValIsScalar v4) :
    jsonLoads (jsonDumps (.dict (.cons "eventId" v1 (.cons "eventName" v2
      (.cons "timestamp" v3 (.cons "eventDetails" v4 .nil)))))) =
      .ok (.dict (.cons "eventId" v1 (.cons "eventName" v2
        (.cons "timestamp" v3 (.cons "eventDetails" v4 .nil))))) := by
  show (match (match parseMembers 999999
      (jsonDumpsMembers (.cons "eventId" v1 (.cons "eventName" v2
        (.cons "timestamp" v3 (.cons "eventDetails" v4 .nil)))) ++ '}' :: []) with
      | Except.ok (d, r3) => Except.ok (PyVal.dict d, r3)
      | Except.error e => Except.error e) with
    | Except.error e => Except.error e
    | Except.ok (v, rest) =>
      if skipWs rest = [] then Except.ok v
      else Except.error (PyErr.libraryError "json.JSONDecodeError: Extra data")) = _
  rw [show (999999 : Nat) = 999994 + 5 from rfl]
  rw [parseMembers_toDict 999994 v1 v2 v3 v4 h1 h2 h3 h4 []]
  rfl
theorem avro_round_trip_core (client : GlueSchemaRegistryClient) (name : String)
    (resp : GetSchemaResponse) (vresp : GetSchemaVersionResponse) (sd : PyVal)
    (hg : client.get_schema name = .ok resp)
    (hv : client.get_schema_version name resp.LatestSchemaVersion = .ok vresp)
    (hl : jsonLoads vresp.SchemaDefinition = .ok sd)
    (hp : parse_schema sd = .ok salesforceFields)
    (a b c : String) (n : Int)
    (ha : ((utf8Encode a).length : Int) < 9223372036854775808)
    (hb : ((utf8Encode b).length : Int) < 9223372036854775808)
    (hc : ((utf8Encode c).length : Int) < 9223372036854775808)
    (hn : 0 ≤ n) (hn64 : n < 9223372036854775808) :
    (AvroSerializer.serialize client name ⟨.str a, .str b, .int n, .str c⟩).bind
      (AvroSerializer.deserialize client name) = .ok ⟨.str a, .str b, .int n, .str c⟩ := by
  rw [avro_serialize_eq client name resp vresp sd hg hv hl hp a b c n ha hb hc ⟨by omega, hn64⟩]
  rw [show Except.bind (Except.ok ((longBytes ((utf8Encode a).length : Int) ++ utf8Encode a) ++
      ((longBytes ((utf8Encode b).length : Int) ++ utf8Encode b) ++
        (longBytes n ++ ((longBytes ((utf8Encode c).length : Int) ++ utf8Encode c) ++ [])))))
      (AvroSerializer.deserialize client name) =
    AvroSerializer.deserialize client name
      ((longBytes ((utf8Encode a).length : Int) ++ utf8Encode a) ++
        ((longBytes ((utf8Encode b).length : Int) ++ utf8Encode b) ++
          (longBytes n ++ ((longBytes ((utf8Encode c).length : Int) ++ utf8Encode c) ++ []))))
    from rfl]
  exact avro_deserialize_of_write client name resp vresp sd hg hv hl hp a b c n hn

theorem json_serialize_eq (client : GlueSchemaRegistryClient) (name : String)
    (resp : GetSchemaResponse) (vresp : GetSchemaVersionResponse)
    (hg : client.get_schema name = .ok resp)
    (hv : client.get_schema_version name resp.LatestSchemaVersion = .ok vresp)
    (r : SalesforceAudit) :
    JsonSerializer.serialize client name r =
      .ok (utf8Encode (jsonDumps (.dict r.to_dict))) := by
  unfold JsonSerializer.serialize
  rw [hg]
  simp only [bind, Except.bind, hv]
  rfl

theorem ebind_ok {ε α β : Type} (x : α) (f : α → Except ε β) :
    bind (Except.ok x : Except ε α) f = f x := rfl

theorem json_round_trip_core (client : GlueSchemaRegistryClient) (name : String)
    (resp : GetSchemaResponse) (vresp : GetSchemaVersionResponse)
    (hg : client.get_schema name = .ok resp)
    (hv : client.get_schema_version name resp.LatestSchemaVersion = .ok vresp)
    (a b c : String) (n : Int) (hn : 0 ≤ n) :
    (JsonSerializer.serialize client name ⟨.str a, .str b, .int n, .str c⟩).bind
      (JsonSerializer.deserialize client name) = .ok ⟨.str a, .str b, .int n, .str c⟩ := by
  have hld := jsonLoads_dumps_toDict (.str a) (.str b) (.int n) (.str c)
    (Or.inl ⟨a, rfl⟩) (Or.inl ⟨b, rfl⟩) (Or.inr ⟨n, rfl⟩) (Or.inl ⟨c, rfl⟩)
  rw [json_serialize_eq client name resp vresp hg hv]
  rw [show Except.bind (Except.ok (utf8Encode (jsonDumps
      (.dict (SalesforceAudit.mk (.str a) (.str b) (.int n) (.str c)).to_dict))))
      (JsonSerializer.deserialize client name) =
    JsonSerializer.deserialize client name (utf8Encode (jsonDumps
      (.dict (SalesforceAudit.mk (.str a) (.str b) (.int n) (.str c)).to_dict))) from rfl]
  unfold JsonSerializer.deserialize
  rw [hg]
  simp only [ebind_ok, hv, utf8Decode_encode, SalesforceAudit.to_dict]
  simp only [hld, ebind_ok]
  show Except.mapError _ (SalesforceAudit.make (.str a) (.str b) (.int n) (.str c)) = _
  unfold SalesforceAudit.make
  rw [if_neg (by simp [PyVal.isIntInstance]), if_neg (by simp [PyVal.toIntVal]; omega)]
  rfl
theorem ebind_err {ε α β : Type} (e : ε) (f : α → Except ε β) :
    bind (Except.error e : Except ε α) f = (Except.error e : Except ε β) := rfl

theorem emapError_ok {ε ε2 α : Type} (f : ε → ε2) (x : α) :
    Except.mapError f (Except.ok x : Except ε α) = .ok x := rfl

theorem emapError_err {ε ε2 α : Type} (f : ε → ε2) (e : ε) :
    Except.mapError f (Except.error e : Except ε α) = .error (f e) := rfl

theorem make_ok_inv (event_id event_name timestamp event_details : PyVal) (r : SalesforceAudit)
    (h : SalesforceAudit.make event_id event_name timestamp event_details = .ok r) :
    r = ⟨event_id, event_name, timestamp, event_details⟩ ∧
      timestamp.isIntInstance = true ∧ 0 ≤ timestamp.toIntVal := by
  unfold SalesforceAudit.make at h
  by_cases h1 : timestamp.isIntInstance = true
  · rw [if_neg (fun hc => hc h1)] at h
    by_cases h2 : timestamp.toIntVal < 0
    · rw [if_pos h2] at h
      exact absurd h (by simp)
    · rw [if_neg h2] at h
      have := (Except.ok.injEq _ _).mp h
      exact ⟨this.symm, h1, by omega⟩
  · rw [if_pos h1] at h
    exact absurd h (by simp)

theorem mapError_wrap_shape {α : Type} (pfx : String) (x : Except PyErr α) :
    (∃ v, Except.mapError (fun e => PyErr.schemaRegistryException (pfx ++ e.text)) x = .ok v) ∨
    (∃ cause, Except.mapError (fun e => PyErr.schemaRegistryException (pfx ++ e.text)) x =
      .error (.schemaRegistryException (pfx ++ cause))) := by
  cases x with
  | ok v => exact Or.inl ⟨v, rfl⟩
  | error e => exact Or.inr ⟨e.text, rfl⟩

theorem json_serialize_ok_inv (c : GlueSchemaRegistryClient) (n : String)
    (r : SalesforceAudit) (b : List Nat) (h : JsonSerializer.serialize c n r = .ok b) :
    b = utf8Encode (jsonDumps (.dict r.to_dict)) := by
  unfold JsonSerializer.serialize at h
  cases hg : c.get_schema n with
  | error e =>
    rw [hg, ebind_err, emapError_err] at h
    exact absurd h (by simp)
  | ok resp =>
    rw [hg, ebind_ok] at h
    cases hv : c.get_schema_version n resp.LatestSchemaVersion with
    | error e =>
      rw [hv, ebind_err, emapError_err] at h
      exact absurd h (by simp)
    | ok vresp =>
      rw [hv, ebind_ok] at h
      have h2 : Except.ok (utf8Encode (jsonDumps (.dict r.to_dict))) = Except.ok b := h
      exact ((Except.ok.injEq _ _).mp h2).symm

theorem fetched_inv (c : GlueSchemaRegistryClient) (n : String) (D : String)
    (h : fetchedSchemaDefinition c n = .ok D) :
    ∃ resp vresp, c.get_schema n = .ok resp ∧
      c.get_schema_version n resp.LatestSchemaVersion = .ok vresp ∧
      vresp.SchemaDefinition = D := by
  unfold fetchedSchemaDefinition at h
  cases hg : c.get_schema n with
  | error e =>
    rw [hg, ebind_err] at h
    exact absurd h (by simp)
  | ok resp =>
    rw [hg, ebind_ok] at h
    cases hv : c.get_schema_version n resp.LatestSchemaVersion with
    | error e =>
      rw [hv, ebind_err] at h
      exact absurd h (by simp)
    | ok vresp =>
      rw [hv, ebind_ok] at h
      have h2 : Except.ok vresp.SchemaDefinition = Except.ok D := h
      exact ⟨resp, vresp, rfl, hv, (Except.ok.injEq _ _).mp h2⟩

/-- C2: every failure of the binary adapter's serialize or deserialize —
schema fetch, schema parse, or row encode/decode — surfaces as one
`SchemaRegistryException` whose message carries the underlying cause text,
and in the failure case no record is returned (the result is the error
alone); concretely, deserializing the test suite's five arbitrary bytes
`[1, 2, 3, 4, 5]` fails with the single wrapped error. -/
theorem C2_avro_failures_single_wrapped (client : GlueSchemaRegistryClient)
    (name : String) (audit_event : SalesforceAudit) (data : List Nat) :
    ((∃ out, AvroSerializer.serialize client name audit_event = .ok out) ∨
      (∃ cause, AvroSerializer.serialize client name audit_event =
        .error (.schemaRegistryException ("Failed to serialize SalesforceAudit: " ++ cause)))) ∧
    ((∃ r, AvroSerializer.deserialize client name data = .ok r) ∨
      (∃ cause, AvroSerializer.deserialize client name data =
        .error (.schemaRegistryException ("Failed to deserialize SalesforceAudit: " ++ cause)))) ∧
    AvroSerializer.deserialize goodClient "SalesforceAudit" [1, 2, 3, 4, 5] =
      .error (.schemaRegistryException
        "Failed to deserialize SalesforceAudit: EOFError: reading long past end of data") := by
  refine ⟨?_, ?_, by decide⟩
  · unfold AvroSerializer.serialize
    exact mapError_wrap_shape _ _
  · unfold AvroSerializer.deserialize
    exact mapError_wrap_shape _ _

/-- C4: constructing a `SalesforceAudit` raises the validation
`ValueError` exactly when the timestamp is not an instance of `int` or is
negative; in particular timestamp `-1` fails with the non-negativity
message, and any non-negative integer timestamp with arbitrary text fields
(including empty strings) succeeds, storing the fields unchanged. -/
theorem C4_record_validation (event_id event_name timestamp event_details : PyVal) :
    ((∃ m, SalesforceAudit.make event_id event_name timestamp event_details =
        .error (.valueError m)) ↔
      (timestamp.isIntInstance = false ∨ timestamp.toIntVal < 0)) ∧
    SalesforceAudit.make event_id event_name (.int (-1)) event_details =
      .error (.valueError "timestamp must be non-negative") ∧
    (∀ n : Int, 0 ≤ n →
      SalesforceAudit.make event_id event_name (.int n) event_details =
        .ok ⟨event_id, event_name, .int n, event_details⟩) := by
  refine ⟨⟨?_, ?_⟩, rfl, ?_⟩
  · rintro ⟨m, hm⟩
    unfold SalesforceAudit.make at hm
    by_cases h1 : timestamp.isIntInstance = true
    · rw [if_neg (fun hc => hc h1)] at hm
      by_cases h2 : timestamp.toIntVal < 0
      · exact Or.inr h2
      · rw [if_neg h2] at hm
        exact absurd hm (by simp)
    · exact Or.inl (Bool.eq_false_iff.mpr h1)
  · intro h
    unfold SalesforceAudit.make
    by_cases h1 : timestamp.isIntInstance = true
    · rcases h with h | h
      · rw [h1] at h
        exact absurd h (by simp)
      · rw [if_neg (fun hc => hc h1), if_pos h]
        exact ⟨_, rfl⟩
    · rw [if_pos h1]
      exact ⟨_, rfl⟩
  · intro n hn
    unfold SalesforceAudit.make
    rw [if_neg (by simp [PyVal.isIntInstance]), if_neg (by simp [PyVal.toIntVal]; omega)]

/-- C4 witness at timestamp 3 with empty text fields. -/
theorem C4_record_validation_witness :
    SalesforceAudit.make (.str "") (.str "") (.int 3) (.str "") =
      .ok ⟨.str "", .str "", .int 3, .str ""⟩ :=
  (C4_record_validation (.str "") (.str "") (.int 3) (.str "")).2.2 3 (by decide)

/-- C6: the bytes the binary adapter produces are a function of the record
and the fetched schema definition alone: two clients (or two schema names)
whose fetches yield the same definition text give identical serialize
results for the same record. -/
theorem C6_avro_serialize_deterministic (c1 c2 : GlueSchemaRegistryClient)
    (n1 n2 : String) (D : String) (r : SalesforceAudit)
    (h1 : fetchedSchemaDefinition c1 n1 = .ok D)
    (h2 : fetchedSchemaDefinition c2 n2 = .ok D) :
    AvroSerializer.serialize c1 n1 r = AvroSerializer.serialize c2 n2 r := by
  obtain ⟨resp1, vresp1, hg1, hv1, hD1⟩ := fetched_inv c1 n1 D h1
  obtain ⟨resp2, vresp2, hg2, hv2, hD2⟩ := fetched_inv c2 n2 D h2
  unfold AvroSerializer.serialize
  rw [hg1, hg2]
  simp only [ebind_ok, hv1, hv2, hD1, hD2]

set_option maxRecDepth 100000 in
/-- C6 witness: one healthy registry queried under two names. -/
theorem C6_avro_serialize_deterministic_witness :
    AvroSerializer.serialize goodClient "SalesforceAudit" sampleRecord =
      AvroSerializer.serialize goodClient "OtherName" sampleRecord :=
  C6_avro_serialize_deterministic goodClient goodClient "SalesforceAudit" "OtherName"
    salesforceSchemaText sampleRecord (by decide) (by decide)

/-- C7: a record's validity is established once, at construction: every
record the constructor or `from_dict` returns carries exactly the stored
field values and satisfies the timestamp invariant; since every operation
of the system is a pure function of the record value (no operation rebinds
a constructed record's fields), the invariant holds for the record's
lifetime without re-checking. -/
theorem C7_record_immutable_valid :
    (∀ event_id event_name timestamp event_details r,
      SalesforceAudit.make event_id event_name timestamp event_details = .ok r →
        r = ⟨event_id, event_name, timestamp, event_details⟩ ∧
        r.timestamp.isIntInstance = true ∧ 0 ≤ r.timestamp.toIntVal) ∧
    (∀ v r, SalesforceAudit.from_dict v = .ok r →
      r.timestamp.isIntInstance = true ∧ 0 ≤ r.timestamp.toIntVal) := by
  constructor
  · intro eid en ts ed r h
    obtain ⟨hr, h1, h2⟩ := make_ok_inv eid en ts ed r h
    subst hr
    exact ⟨rfl, h1, h2⟩
  · intro v r h
    cases v with
    | dict d =>
      obtain ⟨hr, h1, h2⟩ := make_ok_inv _ _ _ _ r h
      subst hr
      exact ⟨h1, h2⟩
    | str s => exact absurd h (by simp [SalesforceAudit.from_dict])
    | int n => exact absurd h (by simp [SalesforceAudit.from_dict])
    | bool b => exact absurd h (by simp [SalesforceAudit.from_dict])
    | none => exact absurd h (by simp [SalesforceAudit.from_dict])
    | float f => exact absurd h (by simp [SalesforceAudit.from_dict])
    | list xs => exact absurd h (by simp [SalesforceAudit.from_dict])

/-- C7 witness at a concrete construction. -/
theorem C7_record_immutable_valid_witness :
    sampleRecord = ⟨.str "evt-001", .str "Create", .int 1609459200000, .str "Created new account"⟩ ∧
    sampleRecord.timestamp.isIntInstance = true ∧ 0 ≤ sampleRecord.timestamp.toIntVal :=
  C7_record_immutable_valid.1 (.str "evt-001") (.str "Create") (.int 1609459200000)
    (.str "Created new account") sampleRecord (by decide)

/-- C8 counterexample: a remote failure that is not a `ClientError` (here a
connection error) propagates out of `get_schema` unchanged — the caller
receives the raw `connectionError`, not a wrapped `SchemaRegistryException`,
so not every remote failure surfaces as the single wrapped condition. -/
theorem C8_counterexample :
    GlueSchemaRegistryClient.get_schema connFailClient "SalesforceAudit" =
      .error (.connectionError "EndpointConnectionError: Could not connect") ∧
    (match GlueSchemaRegistryClient.get_schema connFailClient "SalesforceAudit" with
      | .error (.schemaRegistryException _) => False
      | _ => True) := by
  exact ⟨rfl, trivial⟩

/-- C8 (amended): a remote failure that is a service `ClientError` is
wrapped into a single `SchemaRegistryException` carrying the cause text,
for both `get_schema` and `get_schema_version`; a remote failure that is
not a `ClientError` (e.g. a connection error) propagates to the caller
unchanged. -/
theorem C8_client_wraps_only_clienterror (c : GlueSchemaRegistryClient)
    (name : String) (vn : Int) (m : String) :
    (c.glue_client.getSchemaRaw name = .error (.clientError m) →
      c.get_schema name = .error (.schemaRegistryException ("Failed to get schema: " ++ m))) ∧
    (c.glue_client.getSchemaVersionRaw name vn = .error (.clientError m) →
      c.get_schema_version name vn =
        .error (.schemaRegistryException ("Failed to get schema version: " ++ m))) ∧
    (c.glue_client.getSchemaRaw name = .error (.connectionError m) →
      c.get_schema name = .error (.connectionError m)) ∧
    (c.glue_client.getSchemaVersionRaw name vn = .error (.connectionError m) →
      c.get_schema_version name vn = .error (.connectionError m)) := by
  refine ⟨?_, ?_, ?_, ?_⟩ <;> intro h <;>
    first
      | (unfold GlueSchemaRegistryClient.get_schema; rw [h])
      | (unfold GlueSchemaRegistryClient.get_schema_version; rw [h])

/-- C8 witness: a `ClientError`-failing remote is wrapped. -/
theorem C8_client_wraps_witness :
    clientErrClient.get_schema "SalesforceAudit" =
      .error (.schemaRegistryException
        "Failed to get schema: An error occurred (EntityNotFoundException)") :=
  (C8_client_wraps_only_clienterror clientErrClient "SalesforceAudit" 1
    "An error occurred (EntityNotFoundException)").1 rfl

/-- C9: the textual adapter's output bytes depend only on the record: any
two clients and schema names whose fetches succeed produce identical
serialize results for the same record, whatever schema definitions their
registries hold. -/
theorem C9_json_serialize_schema_independent (c1 c2 : GlueSchemaRegistryClient)
    (n1 n2 : String) (r : SalesforceAudit) (b1 b2 : List Nat)
    (h1 : JsonSerializer.serialize c1 n1 r = .ok b1)
    (h2 : JsonSerializer.serialize c2 n2 r = .ok b2) : b1 = b2 := by
  rw [json_serialize_ok_inv c1 n1 r b1 h1, json_serialize_ok_inv c2 n2 r b2 h2]

/-- C9 witness: two registries holding different schemas (the healthy one
and the `foo`-schema one) yield the same bytes for the sample record. -/
theorem C9_json_serialize_schema_independent_witness :
    utf8Encode (jsonDumps (.dict sampleRecord.to_dict)) =
      utf8Encode (jsonDumps (.dict sampleRecord.to_dict)) :=
  C9_json_serialize_schema_independent goodClient fooClient "SalesAuditJSON" "Other"
    sampleRecord _ _ (by decide) (by decide)
theorem ebind_ok_inv {ε α β : Type} (x : Except ε α) (f : α → Except ε β) (v : β)
    (h : bind x f = .ok v) : ∃ a, x = .ok a ∧ f a = .ok v := by
  cases x with
  | ok a => exact ⟨a, rfl, h⟩
  | error e => exact absurd h (by simp [bind, Except.bind])

theorem emapError_ok_inv {ε ε2 α : Type} (f : ε → ε2) (x : Except ε α) (v : α)
    (h : Except.mapError f x = .ok v) : x = .ok v := by
  cases x with
  | ok a =>
    rw [emapError_ok] at h
    rw [(Except.ok.injEq _ _).mp h]
  | error e => exact absurd h (by simp [Except.mapError])

set_option maxRecDepth 100000 in
/-- C1 counterexample: with a registry whose stored definition is a
well-formed record schema that merely does not match the `SalesforceAudit`
record (single field `foo`), serialize-then-deserialize with the binary
adapter does not return the original record — so the round trip does not
hold for every schema definition the registry may return. -/
theorem C1_counterexample :
    (AvroSerializer.serialize fooClient "SalesforceAudit" sampleRecord).bind
      (AvroSerializer.deserialize fooClient "SalesforceAudit") ≠ .ok sampleRecord := by
  decide

/-- C1 (amended): for every record whose fields respect the data model
(text fields, non-negative integer timestamp) and every registry fetch
that succeeds, deserialize-after-serialize returns the record unchanged in
all four fields — for the binary adapter whenever the fetched definition
parses to the `SalesforceAudit` schema (`eventId`/`eventName`/`timestamp`/
`eventDetails` of types string/string/long/string) and the values fit
`fastavro`'s 64-bit `long` writer (timestamp below `2^63`; the text
fields' UTF-8 byte counts below `2^63`, which every CPython `Py_ssize_t`
length satisfies), and for the textual adapter for any fetched
definition. -/
theorem C1_round_trip (client : GlueSchemaRegistryClient) (name : String)
    (resp : GetSchemaResponse) (vresp : GetSchemaVersionResponse)
    (a b c : String) (n : Int)
    (hg : client.get_schema name = .ok resp)
    (hv : client.get_schema_version name resp.LatestSchemaVersion = .ok vresp)
    (hn : 0 ≤ n) :
    ((jsonLoads vresp.SchemaDefinition).bind parse_schema = .ok salesforceFields →
      ((utf8Encode a).length : Int) < 9223372036854775808 →
      ((utf8Encode b).length : Int) < 9223372036854775808 →
      ((utf8Encode c).length : Int) < 9223372036854775808 →
      n < 9223372036854775808 →
      (AvroSerializer.serialize client name ⟨.str a, .str b, .int n, .str c⟩).bind
        (AvroSerializer.deserialize client name) = .ok ⟨.str a, .str b, .int n, .str c⟩) ∧
    (JsonSerializer.serialize client name ⟨.str a, .str b, .int n, .str c⟩).bind
      (JsonSerializer.deserialize client name) = .ok ⟨.str a, .str b, .int n, .str c⟩ := by
  constructor
  · intro hp ha hb hc hn64
    cases hl : jsonLoads vresp.SchemaDefinition with
    | error e =>
      rw [hl] at hp
      exact Except.noConfusion (show Except.error e = Except.ok salesforceFields from hp)
    | ok sd =>
      rw [hl] at hp
      exact avro_round_trip_core client name resp vresp sd hg hv hl hp a b c n ha hb hc hn hn64
  · exact json_round_trip_core client name resp vresp hg hv a b c n hn

set_option maxRecDepth 1000000 in
/-- C1 witness: the spec's concrete scenario record over the healthy
registry, for both adapters. -/
theorem C1_round_trip_witness :
    (AvroSerializer.serialize goodClient "SalesforceAudit"
      ⟨.str "evt-001", .str "Create", .int 1609459200000, .str "Created new account"⟩).bind
      (AvroSerializer.deserialize goodClient "SalesforceAudit") =
      .ok ⟨.str "evt-001", .str "Create", .int 1609459200000, .str "Created new account"⟩ ∧
    (JsonSerializer.serialize goodClient "SalesforceAudit"
      ⟨.str "evt-001", .str "Create", .int 1609459200000, .str "Created new account"⟩).bind
      (JsonSerializer.deserialize goodClient "SalesforceAudit") =
      .ok ⟨.str "evt-001", .str "Create", .int 1609459200000, .str "Created new account"⟩ :=
  ⟨(C1_round_trip goodClient "SalesforceAudit" ⟨1, "AVRO"⟩ ⟨salesforceSchemaText⟩
      "evt-001" "Create" "Created new account" 1609459200000
      (by decide) (by decide) (by decide)).1
    (by decide) (by decide) (by decide) (by decide) (by decide),
   (C1_round_trip goodClient "SalesforceAudit" ⟨1, "AVRO"⟩ ⟨salesforceSchemaText⟩
      "evt-001" "Create" "Created new account" 1609459200000
      (by decide) (by decide) (by decide)).2⟩

set_option maxRecDepth 100000 in
/-- C3 counterexample: a negative-timestamp object payload,
yet the textual adapter's deserialize fails on it instead of
reconstructing a record — so not every JSON object payload yields a
record. -/
theorem C3_counterexample :
    jsonLoads "\x7b\"timestamp\": -1\x7d" = .ok (.dict (.cons "timestamp" (.int (-1)) .nil)) ∧
    JsonSerializer.deserialize goodClient "SalesAuditJSON" (utf8Encode "\x7b\"timestamp\": -1\x7d") =
      .error (.schemaRegistryException
        "Failed to deserialize JSON to SalesforceAudit: timestamp must be non-negative") := by
  exact ⟨by decide, by decide⟩

/-- C3 (amended): for every UTF-8 JSON object payload whose `timestamp`
entry (if present) is a non-negative instance of `int`, the textual
adapter's deserialize reconstructs a record by substituting a default for
each missing key (`""` for the text fields, `0` for the timestamp) rather
than failing; in particular `{"eventId": "x"}` yields
`Record("x", "", 0, "")`.  A payload whose present `timestamp` is negative
or not an integer instead fails record validation (see C10). -/
theorem C3_json_deserialize_defaults (client : GlueSchemaRegistryClient) (name : String)
    (data : List Nat) (s : String) (d : PyDict)
    (resp : GetSchemaResponse) (vresp : GetSchemaVersionResponse)
    (hg : client.get_schema name = .ok resp)
    (hv : client.get_schema_version name resp.LatestSchemaVersion = .ok vresp)
    (hdec : utf8Decode data = .ok s) (hjl : jsonLoads s = .ok (.dict d))
    (hts1 : (d.getD "timestamp" (.int 0)).isIntInstance = true)
    (hts2 : 0 ≤ (d.getD "timestamp" (.int 0)).toIntVal) :
    JsonSerializer.deserialize client name data =
      .ok ⟨d.getD "eventId" (.str ""), d.getD "eventName" (.str ""),
        d.getD "timestamp" (.int 0), d.getD "eventDetails" (.str "")⟩ := by
  unfold JsonSerializer.deserialize
  rw [hg]
  simp only [ebind_ok, hv, hdec, hjl]
  show Except.mapError _ (SalesforceAudit.from_dict (.dict d)) = _
  rw [show SalesforceAudit.from_dict (.dict d) =
    SalesforceAudit.make (d.getD "eventId" (.str "")) (d.getD "eventName" (.str ""))
      (d.getD "timestamp" (.int 0)) (d.getD "eventDetails" (.str "")) from rfl]
  unfold SalesforceAudit.make
  rw [if_neg (fun hc => hc hts1), if_neg (by omega)]
  rfl

set_option maxRecDepth 100000 in
/-- C3 witness: the spec's lenient-default payload. -/
theorem C3_json_deserialize_defaults_witness :
    JsonSerializer.deserialize goodClient "SalesAuditJSON" (utf8Encode "\x7b\"eventId\": \"x\"\x7d") =
      .ok ⟨.str "x", .str "", .int 0, .str ""⟩ :=
  C3_json_deserialize_defaults goodClient "SalesAuditJSON"
    (utf8Encode "\x7b\"eventId\": \"x\"\x7d") "\x7b\"eventId\": \"x\"\x7d"
    (.cons "eventId" (.str "x") .nil) ⟨1, "AVRO"⟩ ⟨salesforceSchemaText⟩
    (by decide) (by decide) (by decide) (by decide) (by decide) (by decide)
theorem from_dict_ok_inv (v : PyVal) (r : SalesforceAudit)
    (h : SalesforceAudit.from_dict v = .ok r) :
    r.timestamp.isIntInstance = true ∧ 0 ≤ r.timestamp.toIntVal := by
  cases v with
  | dict d =>
    obtain ⟨hr, h1, h2⟩ := make_ok_inv _ _ _ _ r h
    subst hr
    exact ⟨h1, h2⟩
  | str s => exact absurd h (by simp [SalesforceAudit.from_dict])
  | int n => exact absurd h (by simp [SalesforceAudit.from_dict])
  | bool b => exact absurd h (by simp [SalesforceAudit.from_dict])
  | none => exact absurd h (by simp [SalesforceAudit.from_dict])
  | float f => exact absurd h (by simp [SalesforceAudit.from_dict])
  | list xs => exact absurd h (by simp [SalesforceAudit.from_dict])

/-- C10: every record either adapter's deserialize returns satisfies the
validity invariant — its timestamp is an instance of `int` and
non-negative, because the validating constructor runs on both
deserialization paths — and a decoded payload whose timestamp value is
negative or not an integer instance never yields a record. -/
theorem C10_deserialized_records_valid :
    (∀ (client : GlueSchemaRegistryClient) (name : String) (data : List Nat)
        (r : SalesforceAudit),
      AvroSerializer.deserialize client name data = .ok r →
        r.timestamp.isIntInstance = true ∧ 0 ≤ r.timestamp.toIntVal) ∧
    (∀ (client : GlueSchemaRegistryClient) (name : String) (data : List Nat)
        (r : SalesforceAudit),
      JsonSerializer.deserialize client name data = .ok r →
        r.timestamp.isIntInstance = true ∧ 0 ≤ r.timestamp.toIntVal) ∧
    (∀ (client : GlueSchemaRegistryClient) (name : String) (data : List Nat)
        (s : String) (d : PyDict) (r : SalesforceAudit),
      utf8Decode data = .ok s → jsonLoads s = .ok (.dict d) →
      ((d.getD "timestamp" (.int 0)).isIntInstance = false ∨
        (d.getD "timestamp" (.int 0)).toIntVal < 0) →
      JsonSerializer.deserialize client name data ≠ .ok r) ∧
    (∀ (client : GlueSchemaRegistryClient) (name : String) (data : List Nat)
        (resp : GetSchemaResponse) (vresp : GetSchemaVersionResponse) (sd : PyVal)
        (fields : AvroFields) (rec : PyDict) (tv : PyVal) (r : SalesforceAudit),
      client.get_schema name = .ok resp →
      client.get_schema_version name resp.LatestSchemaVersion = .ok vresp →
      jsonLoads vresp.SchemaDefinition = .ok sd →
      parse_schema sd = .ok fields →
      schemalessReader fields data = .ok rec →
      rec.get "timestamp" = some tv →
      (tv.isIntInstance = false ∨ tv.toIntVal < 0) →
      AvroSerializer.deserialize client name data ≠ .ok r) := by
  refine ⟨?_, ?_, ?_, ?_⟩
  · intro client name data r h
    unfold AvroSerializer.deserialize at h
    have h2 := emapError_ok_inv _ _ _ h
    obtain ⟨resp, hg, h3⟩ := ebind_ok_inv _ _ _ h2
    obtain ⟨vresp, hv, h4⟩ := ebind_ok_inv _ _ _ h3
    obtain ⟨sd, hl, h5⟩ := ebind_ok_inv _ _ _ h4
    obtain ⟨fields, hpp, h6⟩ := ebind_ok_inv _ _ _ h5
    obtain ⟨rec, hr, h7⟩ := ebind_ok_inv _ _ _ h6
    obtain ⟨eid, _, h8⟩ := ebind_ok_inv _ _ _ h7
    obtain ⟨en, _, h9⟩ := ebind_ok_inv _ _ _ h8
    obtain ⟨tv, _, h10⟩ := ebind_ok_inv _ _ _ h9
    obtain ⟨ed, _, h11⟩ := ebind_ok_inv _ _ _ h10
    obtain ⟨hr2, h12, h13⟩ := make_ok_inv _ _ _ _ r h11
    subst hr2
    exact ⟨h12, h13⟩
  · intro client name data r h
    unfold JsonSerializer.deserialize at h
    have h2 := emapError_ok_inv _ _ _ h
    obtain ⟨resp, hg, h3⟩ := ebind_ok_inv _ _ _ h2
    obtain ⟨vresp, hv, h4⟩ := ebind_ok_inv _ _ _ h3
    obtain ⟨s, hdec, h5⟩ := ebind_ok_inv _ _ _ h4
    obtain ⟨v, hjl, h6⟩ := ebind_ok_inv _ _ _ h5
    exact from_dict_ok_inv v r h6
  · intro client name data s d r hdec hjl hbad h
    unfold JsonSerializer.deserialize at h
    have h2 := emapError_ok_inv _ _ _ h
    obtain ⟨resp, hg, h3⟩ := ebind_ok_inv _ _ _ h2
    obtain ⟨vresp, hv, h4⟩ := ebind_ok_inv _ _ _ h3
    obtain ⟨s2, hdec2, h5⟩ := ebind_ok_inv _ _ _ h4
    rw [hdec] at hdec2
    obtain rfl : s = s2 := (Except.ok.injEq _ _).mp hdec2
    obtain ⟨v, hjl2, h6⟩ := ebind_ok_inv _ _ _ h5
    rw [hjl] at hjl2
    obtain rfl : PyVal.dict d = v := (Except.ok.injEq _ _).mp hjl2
    have h7 : SalesforceAudit.make (d.getD "eventId" (.str "")) (d.getD "eventName" (.str ""))
        (d.getD "timestamp" (.int 0)) (d.getD "eventDetails" (.str "")) = .ok r := h6
    obtain ⟨_, h8, h9⟩ := make_ok_inv _ _ _ _ r h7
    rcases hbad with hb | hb
    · rw [h8] at hb
      exact absurd hb (by simp)
    · omega
  · intro client name data resp vresp sd fields rec tv r hg hv hl hpp hrd hget hbad h
    unfold AvroSerializer.deserialize at h
    have h2 := emapError_ok_inv _ _ _ h
    obtain ⟨resp2, hg2, h3⟩ := ebind_ok_inv _ _ _ h2
    rw [hg] at hg2
    obtain rfl : resp = resp2 := (Except.ok.injEq _ _).mp hg2
    obtain ⟨vresp2, hv2, h4⟩ := ebind_ok_inv _ _ _ h3
    rw [hv] at hv2
    obtain rfl : vresp = vresp2 := (Except.ok.injEq _ _).mp hv2
    obtain ⟨sd2, hl2, h5⟩ := ebind_ok_inv _ _ _ h4
    rw [hl] at hl2
    obtain rfl : sd = sd2 := (Except.ok.injEq _ _).mp hl2
    obtain ⟨fields2, hpp2, h6⟩ := ebind_ok_inv _ _ _ h5
    rw [hpp] at hpp2
    obtain rfl : fields = fields2 := (Except.ok.injEq _ _).mp hpp2
    obtain ⟨rec2, hrd2, h7⟩ := ebind_ok_inv _ _ _ h6
    rw [hrd] at hrd2
    obtain rfl : rec = rec2 := (Except.ok.injEq _ _).mp hrd2
    obtain ⟨eid, _, h8⟩ := ebind_ok_inv _ _ _ h7
    obtain ⟨en, _, h9⟩ := ebind_ok_inv _ _ _ h8
    obtain ⟨tv2, hidx, h10⟩ := ebind_ok_inv _ _ _ h9
    have htv : tv2 = tv := by
      unfold PyDict.index at hidx
      rw [hget] at hidx
      exact ((Except.ok.injEq _ _).mp hidx).symm
    subst htv
    obtain ⟨ed, _, h11⟩ := ebind_ok_inv _ _ _ h10
    obtain ⟨_, h12, h13⟩ := make_ok_inv _ _ _ _ r h11
    rcases hbad with hb | hb
    · rw [h12] at hb
      exact absurd hb (by simp)
    · omega

set_option maxRecDepth 100000 in
/-- C10 witness: the negative-timestamp payload never deserializes to a
record. -/
theorem C10_deserialized_records_valid_witness :
    JsonSerializer.deserialize goodClient "SalesAuditJSON" (utf8Encode "\x7b\"timestamp\": -1\x7d") ≠
      .ok ⟨.str "", .str "", .int 0, .str ""⟩ :=
  C10_deserialized_records_valid.2.2.1 goodClient "SalesAuditJSON"
    (utf8Encode "\x7b\"timestamp\": -1\x7d") "\x7b\"timestamp\": -1\x7d"
    (.cons "timestamp" (.int (-1)) .nil) ⟨.str "", .str "", .int 0, .str ""⟩
    (by decide) (by decide) (by decide)
/-- C5: encoder and decoder of both adapters agree on the fixed wire-name
table.  (i) `to_dict` binds each record field to exactly its wire name;
(ii) decoding the textual adapter's output generically recovers the
record's fields under the four wire names; (iii) decoding the binary
adapter's output against the `SalesforceAudit` schema recovers the
record's fields under the four wire names; (iv) `from_dict` (the textual
decoder's reconstruction) reads only the four wire names: dicts agreeing
there decode identically; (v) the binary decoder's record reconstruction
reads only the four wire names. -/
theorem C5_wire_name_mapping :
    (∀ r : SalesforceAudit,
      r.to_dict.get "eventId" = some r.event_id ∧
      r.to_dict.get "eventName" = some r.event_name ∧
      r.to_dict.get "timestamp" = some r.timestamp ∧
      r.to_dict.get "eventDetails" = some r.event_details) ∧
    (∀ (client : GlueSchemaRegistryClient) (name : String) (a b c : String) (n : Int)
        (out : List Nat),
      JsonSerializer.serialize client name ⟨.str a, .str b, .int n, .str c⟩ = .ok out →
      Except.bind (utf8Decode out) jsonLoads =
        .ok (.dict (SalesforceAudit.mk (.str a) (.str b) (.int n) (.str c)).to_dict)) ∧
    (∀ (client : GlueSchemaRegistryClient) (name : String)
        (resp : GetSchemaResponse) (vresp : GetSchemaVersionResponse)
        (a b c : String) (n : Int) (out : List Nat),
      client.get_schema name = .ok resp →
      client.get_schema_version name resp.LatestSchemaVersion = .ok vresp →
      (jsonLoads vresp.SchemaDefinition).bind parse_schema = .ok salesforceFields →
      AvroSerializer.serialize client name ⟨.str a, .str b, .int n, .str c⟩ = .ok out →
      schemalessReader salesforceFields out =
        .ok (SalesforceAudit.mk (.str a) (.str b) (.int n) (.str c)).to_dict) ∧
    (∀ d1 d2 : PyDict,
      d1.get "eventId" = d2.get "eventId" →
      d1.get "eventName" = d2.get "eventName" →
      d1.get "timestamp" = d2.get "timestamp" →
      d1.get "eventDetails" = d2.get "eventDetails" →
      SalesforceAudit.from_dict (.dict d1) = SalesforceAudit.from_dict (.dict d2)) ∧
    (∀ rec1 rec2 : PyDict,
      rec1.get "eventId" = rec2.get "eventId" →
      rec1.get "eventName" = rec2.get "eventName" →
      rec1.get "timestamp" = rec2.get "timestamp" →
      rec1.get "eventDetails" = rec2.get "eventDetails" →
      (do
        let event_id ← rec1.index "eventId"
        let event_name ← rec1.index "eventName"
        let timestamp ← rec1.index "timestamp"
        let event_details ← rec1.index "eventDetails"
        SalesforceAudit.make event_id event_name timestamp event_details) =
      (do
        let event_id ← rec2.index "eventId"
        let event_name ← rec2.index "eventName"
        let timestamp ← rec2.index "timestamp"
        let event_details ← rec2.index "eventDetails"
        SalesforceAudit.make event_id event_name timestamp event_details)) := by
  refine ⟨?_, ?_, ?_, ?_, ?_⟩
  · intro r
    exact ⟨rfl, rfl, rfl, rfl⟩
  · intro client name a b c n out h
    rw [json_serialize_ok_inv client name _ out h]
    rw [utf8Decode_encode]
    show jsonLoads (jsonDumps
      (.dict (SalesforceAudit.mk (.str a) (.str b) (.int n) (.str c)).to_dict)) = _
    simp only [SalesforceAudit.to_dict]
    exact jsonLoads_dumps_toDict (.str a) (.str b) (.int n) (.str c)
      (Or.inl ⟨a, rfl⟩) (Or.inl ⟨b, rfl⟩) (Or.inr ⟨n, rfl⟩) (Or.inl ⟨c, rfl⟩)
  · intro client name resp vresp a b c n out hg hv hp h
    cases hl : jsonLoads vresp.SchemaDefinition with
    | error e =>
      rw [hl] at hp
      exact Except.noConfusion (show Except.error e = Except.ok salesforceFields from hp)
    | ok sd =>
      rw [hl] at hp
      rw [avro_serialize_unfold client name resp vresp sd hg hv hl hp a b c n] at h
      have hw := emapError_ok_inv _ _ _ h
      obtain ⟨hn, hout⟩ := writeRecord_salesforce_ok_inv a b c n out hw
      rw [hout]
      unfold schemalessReader
      rw [readRecord_salesforce]
      rfl
  · intro d1 d2 h1 h2 h3 h4
    show SalesforceAudit.make (d1.getD "eventId" (.str "")) (d1.getD "eventName" (.str ""))
        (d1.getD "timestamp" (.int 0)) (d1.getD "eventDetails" (.str "")) =
      SalesforceAudit.make (d2.getD "eventId" (.str "")) (d2.getD "eventName" (.str ""))
        (d2.getD "timestamp" (.int 0)) (d2.getD "eventDetails" (.str ""))
    unfold PyDict.getD
    rw [h1, h2, h3, h4]
  · intro rec1 rec2 h1 h2 h3 h4
    unfold PyDict.index
    rw [h1, h2, h3, h4]

set_option maxRecDepth 1000000 in
/-- C5 witness: decoding the textual adapter's concrete output recovers
the sample record's fields under the wire names, and reading the binary
adapter's concrete output against the `SalesforceAudit` schema recovers
them as well. -/
theorem C5_wire_name_mapping_witness :
    (Except.bind (utf8Decode (utf8Encode (jsonDumps (.dict sampleRecord.to_dict)))) jsonLoads =
      .ok (.dict sampleRecord.to_dict)) ∧
    schemalessReader salesforceFields
      ((longBytes ((utf8Encode "evt-001").length : Int) ++ utf8Encode "evt-001") ++
        ((longBytes ((utf8Encode "Create").length : Int) ++ utf8Encode "Create") ++
          (longBytes 1609459200000 ++
            ((longBytes ((utf8Encode "Created new account").length : Int) ++
              utf8Encode "Created new account") ++ [])))) =
      .ok sampleRecord.to_dict :=
  ⟨C5_wire_name_mapping.2.1 goodClient "SalesAuditJSON" "evt-001" "Create"
    "Created new account" 1609459200000
    (utf8Encode (jsonDumps (.dict sampleRecord.to_dict))) (by decide),
   C5_wire_name_mapping.2.2.1 goodClient "SalesforceAudit" ⟨1, "AVRO"⟩ ⟨salesforceSchemaText⟩
    "evt-001" "Create" "Created new account" 1609459200000 _
    (by decide) (by decide) (by decide) (by decide)⟩
end GlueSchemaRegistry
